import Mathlib

/-!
Verification development for the `warp-mining-ai` optimization engine
(`engines/optimization_engine.py`).

Modelling conventions (shallow embedding):
* Python floats are modelled as exact rationals (`ℚ`).  The float
  format/parse round-trips (`f"{x:.1f}"` followed by `float(...)`) are
  modelled as exact round-half-even rounding on rationals.
* Python dicts (parameter maps, bounds) are modelled as insertion-ordered
  association lists with the keys assumed distinct, matching dict semantics.
* Fallible Python code is modelled in `Except PyErr`: float division by
  zero raises `ZeroDivisionError`, arithmetic on non-numeric values raises
  `TypeError`, reading the loop variable after a zero-iteration loop raises
  `NameError`, and `np.random.normal` with a negative scale raises
  `ValueError`.
* The numpy generator, seeded with the fixed constant 42 at the start of
  `_simulate_optimization`, is modelled as an explicit stream
  `rng : ℕ → ℚ` of standard-normal variates consumed left to right; a draw
  `np.random.normal(0, s)` is modelled as `s * rng k` for the next index
  `k`.  Because the seed is a fixed constant, the same stream is used by
  every call.
* `np.sqrt` (used only for the leaching-time factor) is modelled as the
  exact rational square root; it is exact on every argument reachable in
  this development (perfect squares), and returns 0 elsewhere.
* `datetime.now().isoformat()` is modelled as an explicit `now : String`
  argument captured at call time.
-/

deriving instance DecidableEq for Except

attribute [local semireducible] Rat.add Rat.sub Rat.mul Rat.inv Rat.ofScientific

set_option maxRecDepth 40000

namespace WarpMining

/-- Python exceptions that the engine can actually raise. -/
inductive PyErr where
  | zeroDivision
  | nameError
  | typeError
  | valueError
  | keyError
  | indexError
deriving DecidableEq, Repr

/-- A parameter value: numeric (`int`/`float`) or some other object. -/
inductive PValue where
  | num (q : ℚ)
  | other (s : String)
deriving DecidableEq, Repr

/-- A parameter map: insertion-ordered association list, keys distinct. -/
abbrev ParameterMap := List (String × PValue)

/-- Python `m[k]` / `k in m` on a dict, as first-match lookup. -/
def lookupVal (m : ParameterMap) (k : String) : Option PValue :=
  (m.find? (fun e => e.1 == k)).map (·.2)

/-- `parameters.get(k, d)` where the value is then used arithmetically:
a present non-numeric value raises `TypeError` at the use site. -/
def getParamQ (m : ParameterMap) (k : String) (d : ℚ) : Except PyErr ℚ :=
  match lookupVal m k with
  | none => .ok d
  | some (.num q) => .ok q
  | some (.other _) => .error .typeError

/-- Is this value numeric? -/
def PValue.isNum : PValue → Bool
  | .num _ => true
  | .other _ => false

/-- Every value of the map is numeric. -/
def allNumericB (m : ParameterMap) : Bool := m.all (fun kv => kv.2.isNum)

/-- Every value of the map is numeric and nonzero. -/
def valsNumNonzeroB (m : ParameterMap) : Bool :=
  m.all (fun kv =>
    match kv.2 with
    | .num q => decide (q ≠ 0)
    | .other _ => false)

/-- Every bounds entry is a proper (non-inverted) interval. -/
def boundsProperB (b : List (String × (ℚ × ℚ))) : Bool :=
  b.all (fun e => decide (e.2.1 ≤ e.2.2))

/-- Executable absolute value on ℚ (identical to `|·|`, see
`qabs_eq_abs` below). -/
def qabs (x : ℚ) : ℚ := if x < 0 then -x else x

/-- Largest `r ≤ k` with `r * r ≤ n` (0 when none), by countdown. -/
def natSqrtGo (n : ℕ) : ℕ → ℕ
  | 0 => 0
  | k + 1 => if (k + 1) * (k + 1) ≤ n then k + 1 else natSqrtGo n k

/-- Integer square root, executable by the kernel. -/
def natSqrt (n : ℕ) : ℕ := natSqrtGo n n

/-- Exact rational square root; models `np.sqrt`, which in this
development is only ever applied to perfect squares. -/
def ratSqrt (q : ℚ) : ℚ :=
  let sn := natSqrt q.num.toNat
  let sd := natSqrt q.den
  if 0 ≤ q.num ∧ sn * sn = q.num.toNat ∧ sd * sd = q.den then (sn : ℚ) / (sd : ℚ) else 0

/-- `np.clip(x, lo, hi) = min(hi, max(x, lo))` (applies the lower bound
first, so an inverted range returns `hi`). -/
def npClip (x lo hi : ℚ) : ℚ := min hi (max x lo)

/-- Character-list version of Python `startswith`. -/
def startsL : List Char → List Char → Bool
  | [], _ => true
  | _ :: _, [] => false
  | a :: as, b :: bs => a == b && startsL as bs

/-- Character-list substring test. -/
def subL : List Char → List Char → Bool
  | n, [] => n.isEmpty
  | n, h :: t => startsL n (h :: t) || subL n t

/-- Python `needle in hay` on strings (substring containment). -/
def pyIn (needle hay : String) : Bool := subL needle.toList hay.toList

/-- Python `hay.startswith(needle)`. -/
def pyStarts (needle hay : String) : Bool := startsL needle.toList hay.toList

/-- Python `s.lower()` (ASCII suffices here). -/
def pyLower (s : String) : String := String.mk (s.toList.map Char.toLower)

/-- `_estimate_recovery`: base 0.75 scaled by temperature, acid, time and
grade factors, capped at 0.98. -/
def estimateRecovery (p : ParameterMap) : Except PyErr ℚ := do
  let temp ← getParamQ p "temperature" 65
  let tempFactor := min (12/10 : ℚ) ((temp - 25) / 60)
  let acid ← getParamQ p "acid_concentration" (3/2)
  let acidFactor := min (11/10 : ℚ) (acid / 2)
  let time ← getParamQ p "leaching_time" 8
  let timeFactor := min (115/100 : ℚ) (ratSqrt (time / 8))
  let grade ← getParamQ p "ore_grade" (5/2)
  let gradeFactor := min (11/10 : ℚ) (grade / 3)
  pure (min (98/100 : ℚ) ((3/4) * tempFactor * acidFactor * timeFactor * gradeFactor))

/-- `_estimate_purity`. -/
def estimatePurity (p : ParameterMap) : Except PyErr ℚ := do
  let voltage ← getParamQ p "voltage" (11/5)
  let voltageFactor := min (11/10 : ℚ) (voltage / (5/2))
  let current ← getParamQ p "current_density" 300
  let currentFactor := max (8/10 : ℚ) (1 - qabs (current - 400) / 800)
  let temp ← getParamQ p "temperature" 60
  let tempFactor := max (8/10 : ℚ) (1 - qabs (temp - 60) / 60)
  pure (min (999/1000 : ℚ) ((9/10) * voltageFactor * currentFactor * tempFactor))

/-- `_estimate_energy_efficiency`. -/
def estimateEnergyEfficiency (p : ParameterMap) : Except PyErr ℚ := do
  let voltage ← getParamQ p "voltage" (11/5)
  let temperature ← getParamQ p "temperature" 65
  let time ← getParamQ p "leaching_time" 8
  let voltagePenalty := (voltage - 18/10) / 2
  let tempPenalty := max 0 (temperature - 25) / 100
  let timePenalty := max 0 (time - 6) / 20
  pure (max (3/10 : ℚ) (1 - voltagePenalty - tempPenalty - timePenalty))

/-- `_estimate_reagent_cost`. -/
def estimateReagentCost (p : ParameterMap) : Except PyErr ℚ := do
  let acidConc ← getParamQ p "acid_concentration" (3/2)
  let reagentDosage ← getParamQ p "reagent_dosage" 2
  pure (50 + acidConc * 40 + reagentDosage * 25)

/-- `_estimate_energy_cost`. -/
def estimateEnergyCost (p : ParameterMap) : Except PyErr ℚ := do
  let voltage ← getParamQ p "voltage" (11/5)
  let temperature ← getParamQ p "temperature" 65
  let time ← getParamQ p "leaching_time" 8
  pure (voltage * 15 * time + max 0 (temperature - 25) * (8/10) * time)

/-- `_estimate_time_cost` (`retention_time` defaults to the leaching time). -/
def estimateTimeCost (p : ParameterMap) : Except PyErr ℚ := do
  let time ← getParamQ p "leaching_time" 8
  let retentionTime ← getParamQ p "retention_time" time
  pure ((time + retentionTime) * 12)

/-- `_estimate_processing_time`. -/
def estimateProcessingTime (p : ParameterMap) : Except PyErr ℚ := do
  let leachingTime ← getParamQ p "leaching_time" 8
  let temperature ← getParamQ p "temperature" 65
  let acidConc ← getParamQ p "acid_concentration" (3/2)
  let t1 := if temperature < 50 then leachingTime * (3/2) else leachingTime
  let t2 := if acidConc < 1 then t1 * (13/10) else t1
  pure t2

/-- `_calculate_objective_value`: dispatch on the objective name, with a
composite default for unrecognized objectives. -/
def calculateObjectiveValue (p : ParameterMap) (objective : String) : Except PyErr ℚ :=
  if objective == "maximize_efficiency" then do
    let recovery ← estimateRecovery p
    let energyEfficiency ← estimateEnergyEfficiency p
    pure (recovery * energyEfficiency)
  else if objective == "minimize_cost" then do
    let reagentCost ← estimateReagentCost p
    let energyCost ← estimateEnergyCost p
    let timeCost ← estimateTimeCost p
    pure (reagentCost + energyCost + timeCost)
  else if objective == "maximize_purity" then
    estimatePurity p
  else if objective == "minimize_time" then
    estimateProcessingTime p
  else do
    let efficiency ← estimateRecovery p
    let reagentCost ← estimateReagentCost p
    let costFactor := 1 / max (1/10 : ℚ) (reagentCost / 100)
    pure (efficiency * costFactor)

/-- `WarpConfig.OPTIMIZATION_ITERATIONS` from `config.py`. -/
def OPTIMIZATION_ITERATIONS : ℕ := 100

/-- Static metadata of a simulated algorithm (only `convergenceRate`
affects any numeric outcome). -/
structure AlgInfo where
  convergenceRate : ℚ
  explorationAbility : ℚ
deriving DecidableEq, Repr

/-- `self.optimization_algorithms` (dict access; missing key would be a
`KeyError`). -/
def optimizationAlgorithms (a : String) : Option AlgInfo :=
  if a == "genetic_algorithm" then some ⟨85/100, 9/10⟩
  else if a == "particle_swarm" then some ⟨92/100, 8/10⟩
  else if a == "simulated_annealing" then some ⟨88/100, 85/100⟩
  else if a == "differential_evolution" then some ⟨9/10, 87/100⟩
  else none

/-- `_select_algorithm`: keyword dispatch on the lower-cased objective. -/
def selectAlgorithm (parameters : ParameterMap) (objective : String) : String :=
  let o := pyLower objective
  if pyIn "multi" o || pyIn "pareto" o then "genetic_algorithm"
  else if pyIn "cost" o then "simulated_annealing"
  else if pyIn "time" o then "particle_swarm"
  else if parameters.length > 6 then "differential_evolution"
  else "particle_swarm"

/-- The hardcoded `standard_bounds` table of `_define_parameter_bounds`. -/
def standardBounds (p : String) : Option (ℚ × ℚ) :=
  if p == "ore_grade" then some (1/2, 8)
  else if p == "leaching_time" then some (2, 48)
  else if p == "acid_concentration" then some (1/10, 5)
  else if p == "temperature" then some (15, 95)
  else if p == "voltage" then some (1, 4)
  else if p == "current_density" then some (100, 800)
  else if p == "pH" then some (1/2, 14)
  else if p == "pressure" then some (1/2, 10)
  else if p == "flow_rate" then some (1, 200)
  else if p == "particle_size" then some (1/10, 100)
  else if p == "reagent_dosage" then some (1/10, 10)
  else if p == "retention_time" then some (1/2, 24)
  else none

/-- The bounds `_define_parameter_bounds` assigns to a single parameter:
hardcoded table entry, else value-relative fallback
`(max(0.1, v*0.5), v*2.0)` for numbers, else the default `(0.1, 10.0)`. -/
def resolveBound (k : String) (v : PValue) : ℚ × ℚ :=
  match standardBounds k with
  | some b => b
  | none =>
    match v with
    | .num q => (max (1/10) (q * (1/2)), q * 2)
    | .other _ => (1/10, 10)

/-- `_define_parameter_bounds`: one bounds entry per parameter, in map
order. -/
def defineParameterBounds (parameters : ParameterMap) : List (String × (ℚ × ℚ)) :=
  parameters.map (fun e => (e.1, resolveBound e.1 e.2))

/-- Dict lookup in the resolved bounds. -/
def lookupBounds (b : List (String × (ℚ × ℚ))) (k : String) : Option (ℚ × ℚ) :=
  (b.find? (fun e => e.1 == k)).map (·.2)

/-- `_get_improvement_factor`: static per-parameter/per-objective table
(default 0.5) times the decaying convergence weight.  (The division by
`max_iterations` is only ever reached with `max_iterations > 0`, since the
iteration loop is what invokes it.) -/
def improvementFactor (param objective : String) (iteration maxIterations : ℕ) : ℚ :=
  let base : ℚ :=
    if param == "temperature" then
      if objective == "maximize_efficiency" then 8/10
      else if objective == "minimize_cost" then -(6/10)
      else if objective == "maximize_purity" then 7/10
      else if objective == "minimize_time" then 9/10
      else 1/2
    else if param == "acid_concentration" then
      if objective == "maximize_efficiency" then 6/10
      else if objective == "minimize_cost" then -(8/10)
      else if objective == "maximize_purity" then 4/10
      else if objective == "minimize_time" then 7/10
      else 1/2
    else if param == "voltage" then
      if objective == "maximize_efficiency" then 5/10
      else if objective == "minimize_cost" then -(7/10)
      else if objective == "maximize_purity" then 9/10
      else if objective == "minimize_time" then 6/10
      else 1/2
    else if param == "leaching_time" then
      if objective == "maximize_efficiency" then 7/10
      else if objective == "minimize_cost" then -(5/10)
      else if objective == "maximize_purity" then 8/10
      else if objective == "minimize_time" then -(9/10)
      else 1/2
    else 1/2
  base * (1 - (iteration : ℚ) / (maxIterations : ℚ))

/-- One pass of the inner `for param, value in optimized_params.items()`
loop of `_simulate_optimization`: each numeric parameter with bounds is
perturbed by `np.random.normal(0, (upper-lower)*0.05) * factor` (a
negative scale raises `ValueError`) and clipped; the stream counter
advances once per draw. -/
def sweepGo (rng : ℕ → ℚ) (objective : String) (bounds : List (String × (ℚ × ℚ)))
    (iteration maxIterations : ℕ) :
    List (String × PValue) → ℕ → Except PyErr (List (String × PValue) × ℕ)
  | [], c => .ok ([], c)
  | e :: rest, c =>
    match lookupBounds bounds e.1 with
    | none =>
      match sweepGo rng objective bounds iteration maxIterations rest c with
      | .error err => .error err
      | .ok (r, c') => .ok (e :: r, c')
    | some (lo, hi) =>
      let factor := improvementFactor e.1 objective iteration maxIterations
      match e.2 with
      | .other s =>
        match sweepGo rng objective bounds iteration maxIterations rest c with
        | .error err => .error err
        | .ok (r, c') => .ok ((e.1, .other s) :: r, c')
      | .num q =>
        let scale := (hi - lo) * (5/100)
        if scale < 0 then .error .valueError
        else
          let adjustment := scale * rng c * factor
          let nv := npClip (q + adjustment) lo hi
          match sweepGo rng objective bounds iteration maxIterations rest (c + 1) with
          | .error err => .error err
          | .ok (r, c') => .ok ((e.1, .num nv) :: r, c')

/-- The `for iteration in range(max_iterations)` loop with the early
`break` once `iteration > max_iterations * convergence_rate`; returns the
final map/counter and the last value bound to `iteration` (none when the
loop body never ran, which makes the later `iteration + 1` a `NameError`). -/
def loopGo (rng : ℕ → ℚ) (objective : String) (bounds : List (String × (ℚ × ℚ)))
    (maxIterations : ℕ) (cutoff : ℚ) :
    ℕ → ℕ → Option ℕ → (List (String × PValue) × ℕ) →
    Except PyErr ((List (String × PValue) × ℕ) × Option ℕ)
  | _, 0, last, st => .ok (st, last)
  | i, fuel + 1, _, st =>
    match sweepGo rng objective bounds i maxIterations st.1 st.2 with
    | .error err => .error err
    | .ok st' =>
      if (i : ℚ) > cutoff then .ok (st', some i)
      else loopGo rng objective bounds maxIterations cutoff (i + 1) fuel (some i) st'

/-- The record returned by `_simulate_optimization` (the code formats
`improvement`, `score` and `confidence` into strings; the underlying
numbers are kept here). -/
structure SimResult where
  optimizedParameters : ParameterMap
  improvementPct : ℚ
  iterations : ℕ
  score : ℚ
  confidence : ℚ
deriving DecidableEq, Repr

/-- `_simulate_optimization`. -/
def simulateOptimization (rng : ℕ → ℚ) (maxIterations : ℕ) (algorithm : String)
    (parameters : ParameterMap) (objective : String)
    (bounds : List (String × (ℚ × ℚ))) : Except PyErr SimResult :=
  match optimizationAlgorithms algorithm with
  | none => .error .keyError
  | some info =>
    match calculateObjectiveValue parameters objective with
    | .error err => .error err
    | .ok baseline =>
      match loopGo rng objective bounds maxIterations
          ((maxIterations : ℚ) * info.convergenceRate) 0 maxIterations none
          (parameters, 0) with
      | .error err => .error err
      | .ok (st, last) =>
        match calculateObjectiveValue st.1 objective with
        | .error err => .error err
        | .ok optimized =>
          if baseline = 0 then .error .zeroDivision
          else
            match last with
            | none => .error .nameError
            | some i =>
              let improvementValue :=
                if pyIn "minimize" objective then baseline - optimized
                else optimized - baseline
              let improvementPct := improvementValue / baseline * 100
              let clamped := max 0 (min 50 improvementPct)
              let score := min 100 (70 + clamped * (6/10))
              let confidence :=
                max (1/2) (info.convergenceRate - min (1/5) ((parameters.length : ℚ) * (2/100)))
              .ok { optimizedParameters := st.1, improvementPct := clamped,
                    iterations := i + 1, score := score, confidence := confidence }

/-- Executable floor of a rational. -/
def qfloor (x : ℚ) : ℤ := Int.fdiv x.num x.den

/-- Round half to even (the rounding used by Python float formatting,
idealized to exact rationals). -/
def rhe (x : ℚ) : ℤ :=
  let f := qfloor x
  let r := x - (f : ℚ)
  if r < 1/2 then f
  else if (1/2 : ℚ) < r then f + 1
  else if f % 2 = 0 then f else f + 1

/-- The `float(f"{x:.1f}".split('%')[0])` round trip: x rounded to one
decimal place. -/
def pyRound1 (x : ℚ) : ℚ := (rhe (x * 10) : ℚ) / 10

/-- Python `f"{x:.{d}f}"`, idealized to exact rationals. -/
def fmtFixed (d : ℕ) (x : ℚ) : String :=
  let scaled := rhe (x * ((10 : ℚ) ^ d))
  let sign := if scaled < 0 then "-" else ""
  let a := scaled.natAbs
  let ip := a / 10 ^ d
  let fp := a % 10 ^ d
  let fpStr := toString fp
  let pad := String.mk (List.replicate (d - fpStr.length) '0')
  sign ++ toString ip ++ (if d = 0 then "" else "." ++ pad ++ fpStr)

/-- Python `f"{x:+.1f}"` (always-signed). -/
def fmtSigned1 (x : ℚ) : String :=
  if rhe (x * 10) < 0 then fmtFixed 1 x else "+" ++ fmtFixed 1 x

/-- Python `s.replace('_', ' ')`. -/
def pyReplaceUnd (s : String) : String :=
  String.mk (s.toList.map (fun c => if c == '_' then ' ' else c))

/-- Helper for `s.title()`: the Bool records whether the previous
character was alphabetic. -/
def pyTitleGo : Bool → List Char → List Char
  | _, [] => []
  | prevAlpha, c :: t =>
    let c' := if c.isAlpha then (if prevAlpha then c.toLower else c.toUpper) else c
    c' :: pyTitleGo c.isAlpha t

/-- Python `s.title()`. -/
def pyTitle (s : String) : String := String.mk (pyTitleGo false s.toList)

/-- The per-parameter loop of `_generate_optimization_recommendations`:
for each optimized parameter also present in the original map, compute
`abs(opt - orig) / orig` (a non-numeric operand raises `TypeError`, a zero
original raises `ZeroDivisionError`) and emit a directional sentence when
the relative change exceeds 5%. -/
def dirRecsGo (original : ParameterMap) : List (String × PValue) → Except PyErr (List String)
  | [] => .ok []
  | (k, ov) :: rest =>
    match lookupVal original k with
    | none => dirRecsGo original rest
    | some gv =>
      match ov, gv with
      | .num o, .num g =>
        if g = 0 then .error .zeroDivision
        else if qabs (o - g) / g > 5/100 then
          let changePct := (o - g) / g * 100
          let dir := if o > g then "Increase" else "Decrease"
          let line := dir ++ " " ++ pyTitle (pyReplaceUnd k) ++ " from " ++ fmtFixed 2 g ++
            " to " ++ fmtFixed 2 o ++ " (" ++ fmtSigned1 changePct ++ "% change)"
          match dirRecsGo original rest with
          | .error err => .error err
          | .ok r => .ok (line :: r)
        else dirRecsGo original rest
      | _, _ => .error .typeError

/-- `_generate_optimization_recommendations`: directional sentences, two
objective-specific lines, two generic lines, and a pilot-testing caution
when the (string-round-tripped) improvement percentage exceeds 20. -/
def generateRecommendations (original : ParameterMap) (sim : SimResult)
    (objective : String) : Except PyErr (List String) :=
  match dirRecsGo original sim.optimizedParameters with
  | .error err => .error err
  | .ok dirRecs =>
    let objRecs : List String :=
      if objective == "maximize_efficiency" then
        ["Monitor recovery rates closely during implementation",
         "Consider staged implementation to validate improvements"]
      else if objective == "minimize_cost" then
        ["Implement cost tracking to verify savings",
         "Balance cost reduction with quality requirements"]
      else if objective == "maximize_purity" then
        ["Increase analytical testing frequency during optimization",
         "Ensure downstream processes can handle purity changes"]
      else if objective == "minimize_time" then
        ["Verify that time reduction doesn\x27t compromise quality",
         "Update production schedules based on new cycle times"]
      else []
    let genericRecs : List String :=
      ["Implement changes gradually to assess individual impacts",
       "Establish monitoring protocols for key performance indicators"]
    let pilotRecs : List String :=
      if pyRound1 sim.improvementPct > 20 then
        ["High improvement potential - consider pilot testing before full implementation"]
      else []
    .ok (dirRecs ++ objRecs ++ genericRecs ++ pilotRecs)

/-- The result record assembled by `optimize` (the code also stores the
formatted string forms; the numeric fields are kept here). -/
structure OptimizationResult where
  timestamp : String
  algorithm : String
  objective : String
  originalParameters : ParameterMap
  optimizedParameters : ParameterMap
  improvementPct : ℚ
  convergenceIterations : ℕ
  optimizationScore : ℚ
  recommendations : List String
  confidenceLevel : ℚ
deriving DecidableEq, Repr

/-- `optimize`: algorithm selection, bounds resolution, simulated search,
recommendations, result assembly.  `now` is the timestamp captured by
`datetime.now().isoformat()` at call time; `rng` is the numpy stream after
the fixed `np.random.seed(42)`. -/
def optimize (rng : ℕ → ℚ) (now : String) (maxIterations : ℕ)
    (parameters : ParameterMap) (objective : String) : Except PyErr OptimizationResult :=
  let algorithm := selectAlgorithm parameters objective
  let bounds := defineParameterBounds parameters
  match simulateOptimization rng maxIterations algorithm parameters objective bounds with
  | .error err => .error err
  | .ok sim =>
    match generateRecommendations parameters sim objective with
    | .error err => .error err
    | .ok recommendations =>
      .ok { timestamp := now
            algorithm := algorithm
            objective := objective
            originalParameters := parameters
            optimizedParameters := sim.optimizedParameters
            improvementPct := sim.improvementPct
            convergenceIterations := sim.iterations
            optimizationScore := sim.score
            recommendations := recommendations
            confidenceLevel := sim.confidence }

/-- One Pareto-style solution of `multi_objective_optimization`. -/
structure ParetoSolution where
  parameters : ParameterMap
  objectives : List (String × ℚ)
  weights : List ℚ
deriving DecidableEq, Repr

/-- The result record of `multi_objective_optimization`. -/
structure MultiObjectiveResult where
  timestamp : String
  algorithm : String
  objectives : List String
  weights : List ℚ
  originalParameters : ParameterMap
  paretoSolutions : List ParetoSolution
  bestCompromise : ParetoSolution
  optimizedParameters : ParameterMap
  recommendations : List String
deriving DecidableEq, Repr

/-- `[w + np.random.normal(0, 0.1) for w in weights]`: one stream draw per
weight, consumed left to right. -/
def variedW (rng : ℕ → ℚ) : ℕ → List ℚ → List ℚ
  | _, [] => []
  | c, w :: ws => (w + rng c * (1/10)) :: variedW rng (c + 1) ws

/-- `total_adjustment`: weighted sum of improvement factors (at the fixed
arguments `iteration=50, max_iterations=100`) over `zip(objectives, weights)`. -/
def totalAdjustment (param : String) (objectives : List String) (ws : List ℚ) : ℚ :=
  (objectives.zip ws).foldl (fun acc ow => acc + improvementFactor param ow.1 50 100 * ow.2) 0

/-- The per-parameter perturbation pass of one Pareto solution: scale is
`(upper-lower)*0.1` (negative scale raises `ValueError`), clipped into
bounds. -/
def moSweepGo (rng : ℕ → ℚ) (objectives : List String) (ws : List ℚ)
    (bounds : List (String × (ℚ × ℚ))) :
    List (String × PValue) → ℕ → Except PyErr (List (String × PValue) × ℕ)
  | [], c => .ok ([], c)
  | e :: rest, c =>
    match lookupBounds bounds e.1 with
    | none =>
      match moSweepGo rng objectives ws bounds rest c with
      | .error err => .error err
      | .ok (r, c') => .ok (e :: r, c')
    | some (lo, hi) =>
      let ta := totalAdjustment e.1 objectives ws
      match e.2 with
      | .other s =>
        match moSweepGo rng objectives ws bounds rest c with
        | .error err => .error err
        | .ok (r, c') => .ok ((e.1, .other s) :: r, c')
      | .num q =>
        let scale := (hi - lo) * (1/10)
        if scale < 0 then .error .valueError
        else
          let nv := npClip (q + scale * rng c * ta) lo hi
          match moSweepGo rng objectives ws bounds rest (c + 1) with
          | .error err => .error err
          | .ok (r, c') => .ok ((e.1, .num nv) :: r, c')

/-- The `objective_values` dict of one Pareto solution, in objective order. -/
def objValuesGo (params : ParameterMap) : List String → Except PyErr (List (String × ℚ))
  | [] => .ok []
  | o :: os =>
    match calculateObjectiveValue params o with
    | .error err => .error err
    | .ok v =>
      match objValuesGo params os with
      | .error err => .error err
      | .ok r => .ok ((o, v) :: r)

/-- The `for i in range(5)` Pareto-solution generator: weights are
perturbed, clamped non-negative, normalized only when their sum is
positive; parameters are independently perturbed; objective values are
evaluated on the result. -/
def genParetoGo (rng : ℕ → ℚ) (objectives : List String) (weights : List ℚ)
    (bounds : List (String × (ℚ × ℚ))) (params : ParameterMap) :
    ℕ → ℕ → Except PyErr (List ParetoSolution × ℕ)
  | 0, c => .ok ([], c)
  | n + 1, c =>
    let v1 := (variedW rng c weights).map (fun w => max 0 w)
    let s := v1.sum
    let vw := if s > 0 then v1.map (fun w => w / s) else v1
    match moSweepGo rng objectives vw bounds params (c + weights.length) with
    | .error err => .error err
    | .ok (sp, c') =>
      match objValuesGo sp objectives with
      | .error err => .error err
      | .ok ovs =>
        match genParetoGo rng objectives weights bounds params n c' with
        | .error err => .error err
        | .ok (rest, c'') =>
          .ok ({ parameters := sp, objectives := ovs, weights := vw } :: rest, c'')

/-- The per-parameter loop of `_generate_multi_objective_recommendations`
(same 5% threshold and division by the original value as the
single-objective generator). -/
def multiDirGo (original : ParameterMap) : List (String × PValue) → Except PyErr (List String)
  | [] => .ok []
  | (k, ov) :: rest =>
    match lookupVal original k with
    | none => multiDirGo original rest
    | some gv =>
      match ov, gv with
      | .num o, .num g =>
        if g = 0 then .error .zeroDivision
        else if qabs (o - g) / g > 5/100 then
          let changePct := (o - g) / g * 100
          let line := "Adjust " ++ pyTitle (pyReplaceUnd k) ++ ": " ++ fmtFixed 2 g ++
            " → " ++ fmtFixed 2 o ++ " (" ++ fmtSigned1 changePct ++ "%)"
          match multiDirGo original rest with
          | .error err => .error err
          | .ok r => .ok (line :: r)
        else multiDirGo original rest
      | _, _ => .error .typeError

/-- `_generate_multi_objective_recommendations`. -/
def genMultiRecs (original : ParameterMap) (best : ParetoSolution) : Except PyErr (List String) :=
  match multiDirGo original best.parameters with
  | .error err => .error err
  | .ok dirs =>
    .ok ("Multi-objective optimization complete - analyze trade-offs carefully" ::
      dirs ++
      ["Monitor all objectives during implementation to ensure balanced performance",
       "Consider adjusting objective weights based on business priorities",
       "Validate Pareto solutions through pilot testing"])

/-- `multi_objective_optimization`: equal weights when unspecified
(a division by zero for an empty objective list), weight normalization
(a division by zero when a nonempty weight list sums to 0), five generated
Pareto solutions, first solution designated best compromise. -/
def multiObjectiveOptimization (rng : ℕ → ℚ) (now : String) (parameters : ParameterMap)
    (objectives : List String) (weightsIn : Option (List ℚ)) :
    Except PyErr MultiObjectiveResult :=
  let w0e : Except PyErr (List ℚ) :=
    match weightsIn with
    | none =>
      if objectives.length = 0 then .error .zeroDivision
      else .ok (List.replicate objectives.length (1 / (objectives.length : ℚ)))
    | some w => .ok w
  match w0e with
  | .error err => .error err
  | .ok w0 =>
    if w0.sum = 0 ∧ w0 ≠ [] then .error .zeroDivision
    else
      let w := w0.map (fun x => x / w0.sum)
      let bounds := defineParameterBounds parameters
      match genParetoGo rng objectives w bounds parameters 5 0 with
      | .error err => .error err
      | .ok (sols, _) =>
        match sols with
        | [] => .error .indexError
        | best :: _ =>
          match genMultiRecs parameters best with
          | .error err => .error err
          | .ok recs =>
            .ok { timestamp := now
                  algorithm := "genetic_algorithm"
                  objectives := objectives
                  weights := w
                  originalParameters := parameters
                  paretoSolutions := sols
                  bestCompromise := best
                  optimizedParameters := best.parameters
                  recommendations := recs }

/-- The all-zeros standard-normal stream: every `np.random.normal(0, s)`
draw evaluates to `0` (used as a concrete instantiation of the stream in
closed theorems). -/
def rng0 : ℕ → ℚ := fun _ => 0

/-- Modelled from the spec: the spec states the improvement is
`baseline − optimized` exactly when the objective name starts with
"minimize" (the code instead tests substring containment); percentage of
baseline, clamped to [0, 50].  Used only to compare against the code. -/
def specImprovementPct (baseline optimized : ℚ) (objective : String) : ℚ :=
  max 0 (min 50
    ((if pyStarts "minimize" objective then baseline - optimized else optimized - baseline)
      / baseline * 100))

/-- A simulation result handed to the recommendation generator in the C8
counterexample: temperature optimized to 15 (its lower bound). -/
def wSim8 : SimResult :=
  { optimizedParameters := [("temperature", PValue.num 15)]
    improvementPct := 0
    iterations := 94
    score := 70
    confidence := 9/10 }

/-- A simulation result used in the C8 witness: temperature optimized
from 65 to 70 (a 7.7% change). -/
def wSim8b : SimResult :=
  { optimizedParameters := [("temperature", PValue.num 70)]
    improvementPct := 0
    iterations := 94
    score := 70
    confidence := 9/10 }

/-- The Pareto solution generated (five times over) by
`multi_objective_optimization` on `{voltage: 2.2}` with objectives
`["maximize_purity", "minimize_cost"]` under the constant `-5` stream:
every varied weight is clamped to zero. -/
def wSol7 : ParetoSolution :=
  { parameters := [("voltage", PValue.num (11/5))]
    objectives := [("maximize_purity", 693/1000), ("minimize_cost", 872)]
    weights := [0, 0] }

/-- The concrete result of the C7 counterexample run. -/
def wMO7 : MultiObjectiveResult :=
  { timestamp := "t"
    algorithm := "genetic_algorithm"
    objectives := ["maximize_purity", "minimize_cost"]
    weights := [1/2, 1/2]
    originalParameters := [("voltage", PValue.num (11/5))]
    paretoSolutions := [wSol7, wSol7, wSol7, wSol7, wSol7]
    bestCompromise := wSol7
    optimizedParameters := [("voltage", PValue.num (11/5))]
    recommendations :=
      ["Multi-objective optimization complete - analyze trade-offs carefully",
       "Monitor all objectives during implementation to ensure balanced performance",
       "Consider adjusting objective weights based on business priorities",
       "Validate Pareto solutions through pilot testing"] }

theorem qabs_eq_abs (x : ℚ) : qabs x = |x| := by
  unfold qabs
  split
  · rw [abs_of_neg]; assumption
  · rw [abs_of_nonneg]; linarith

/-- Inversion of a successful `_simulate_optimization` run: recover the
algorithm metadata, baseline, loop output and optimized value, and the
exact shape of every result field. -/
theorem simulateOptimization_inv {rng : ℕ → ℚ} {mi : ℕ} {alg : String}
    {p : ParameterMap} {obj : String} {bnds : List (String × (ℚ × ℚ))} {sim : SimResult}
    (h : simulateOptimization rng mi alg p obj bnds = .ok sim) :
    ∃ info b st i o',
      optimizationAlgorithms alg = some info ∧
      calculateObjectiveValue p obj = .ok b ∧
      loopGo rng obj bnds mi ((mi : ℚ) * info.convergenceRate) 0 mi none (p, 0) =
        .ok (st, some i) ∧
      calculateObjectiveValue st.1 obj = .ok o' ∧
      b ≠ 0 ∧
      sim = { optimizedParameters := st.1
              improvementPct :=
                max 0 (min 50
                  ((if pyIn "minimize" obj then b - o' else o' - b) / b * 100))
              iterations := i + 1
              score :=
                min 100 (70 + max 0 (min 50
                  ((if pyIn "minimize" obj then b - o' else o' - b) / b * 100)) * (6/10))
              confidence :=
                max (1/2) (info.convergenceRate -
                  min (1/5) ((p.length : ℚ) * (2/100))) } := by
  unfold simulateOptimization at h
  split at h
  · exact absurd h (by simp)
  rename_i info hinfo
  split at h
  · exact absurd h (by simp)
  rename_i b hb
  split at h
  · exact absurd h (by simp)
  rename_i st last hloop
  split at h
  · exact absurd h (by simp)
  rename_i o' ho
  split at h
  · exact absurd h (by simp)
  rename_i hb0
  split at h
  · exact absurd h (by simp)
  rename_i i
  refine ⟨info, b, st, i, o', hinfo, hb, hloop, ho, hb0, ?_⟩
  exact (Except.ok.inj h).symm

/-- A successful sweep preserves the key list (in order). -/
theorem sweepGo_keys (rng : ℕ → ℚ) (obj : String) (bnds : List (String × (ℚ × ℚ)))
    (i mi : ℕ) :
    ∀ (entries : List (String × PValue)) (c : ℕ) (pr : List (String × PValue) × ℕ),
      sweepGo rng obj bnds i mi entries c = .ok pr →
      pr.1.map Prod.fst = entries.map Prod.fst := by
  intro entries
  induction entries with
  | nil =>
    intro c pr h
    simp only [sweepGo] at h
    obtain rfl := (Except.ok.inj h).symm
    rfl
  | cons e rest ih =>
    intro c pr h
    obtain ⟨k0, v0⟩ := e
    simp only [sweepGo] at h
    split at h
    · split at h
      · exact absurd h (by simp)
      rename_i r c' hrest
      obtain rfl := (Except.ok.inj h).symm
      simpa using ih c (r, c') hrest
    · rename_i lo hi hsome
      split at h
      · rename_i s
        split at h
        · exact absurd h (by simp)
        rename_i r c' hrest
        obtain rfl := (Except.ok.inj h).symm
        simpa using ih c (r, c') hrest
      · rename_i q0
        split at h
        · exact absurd h (by simp)
        rename_i hscale
        split at h
        · exact absurd h (by simp)
        rename_i r c' hrest
        obtain rfl := (Except.ok.inj h).symm
        simpa using ih (c + 1) (r, c') hrest

/-- Every numeric value in the output of a successful sweep either had no
bounds entry (and is carried over), or lies inside its looked-up bounds:
success of the draw forces a non-negative scale, i.e. `lo ≤ hi`, and the
clip then lands in `[lo, hi]`. -/
theorem sweepGo_clips (rng : ℕ → ℚ) (obj : String) (bnds : List (String × (ℚ × ℚ)))
    (i mi : ℕ) :
    ∀ (entries : List (String × PValue)) (c : ℕ) (pr : List (String × PValue) × ℕ),
      sweepGo rng obj bnds i mi entries c = .ok pr →
      ∀ k q, (k, PValue.num q) ∈ pr.1 →
        (lookupBounds bnds k = none ∧ (k, PValue.num q) ∈ entries) ∨
        ∃ lo hi, lookupBounds bnds k = some (lo, hi) ∧ lo ≤ q ∧ q ≤ hi := by
  intro entries
  induction entries with
  | nil =>
    intro c pr h k q hmem
    simp only [sweepGo] at h
    obtain rfl := (Except.ok.inj h).symm
    simp at hmem
  | cons e rest ih =>
    intro c pr h k q hmem
    obtain ⟨k0, v0⟩ := e
    simp only [sweepGo] at h
    split at h
    · rename_i hnone
      split at h
      · exact absurd h (by simp)
      rename_i r c' hrest
      obtain rfl := (Except.ok.inj h).symm
      rcases List.mem_cons.mp hmem with hhead | htail
      · have hk : k = k0 := congrArg Prod.fst hhead
        refine Or.inl ⟨by rw [hk]; exact hnone, ?_⟩
        rw [hhead]
        exact List.mem_cons_self _ _
      · rcases ih c (r, c') hrest k q htail with ⟨hn, hm⟩ | hr
        · exact Or.inl ⟨hn, List.mem_cons_of_mem _ hm⟩
        · exact Or.inr hr
    · rename_i lo hi hsome
      split at h
      · rename_i s
        split at h
        · exact absurd h (by simp)
        rename_i r c' hrest
        obtain rfl := (Except.ok.inj h).symm
        rcases List.mem_cons.mp hmem with hhead | htail
        · exact absurd (congrArg Prod.snd hhead) (by simp)
        · rcases ih c (r, c') hrest k q htail with ⟨hn, hm⟩ | hr
          · exact Or.inl ⟨hn, List.mem_cons_of_mem _ hm⟩
          · exact Or.inr hr
      · rename_i q0
        split at h
        · exact absurd h (by simp)
        rename_i hscale
        split at h
        · exact absurd h (by simp)
        rename_i r c' hrest
        obtain rfl := (Except.ok.inj h).symm
        rcases List.mem_cons.mp hmem with hhead | htail
        · have hk : k = k0 := congrArg Prod.fst hhead
          have hq := PValue.num.inj (congrArg Prod.snd hhead)
          have hlohi : lo ≤ hi := by
            by_contra hlt
            exact hscale (by nlinarith [lt_of_not_le hlt])
          refine Or.inr ⟨lo, hi, by rw [hk]; exact hsome, ?_, ?_⟩
          · rw [hq]
            exact le_min hlohi (le_max_right _ _)
          · rw [hq]
            exact min_le_left _ _
        · rcases ih (c + 1) (r, c') hrest k q htail with ⟨hn, hm⟩ | hr
          · exact Or.inl ⟨hn, List.mem_cons_of_mem _ hm⟩
          · exact Or.inr hr

/-- A successful loop run preserves the key list of the parameter map. -/
theorem loopGo_keys (rng : ℕ → ℚ) (obj : String) (bnds : List (String × (ℚ × ℚ)))
    (mi : ℕ) (cutoff : ℚ) :
    ∀ (fuel i : ℕ) (last : Option ℕ) (st : List (String × PValue) × ℕ)
      (res : (List (String × PValue) × ℕ) × Option ℕ),
      loopGo rng obj bnds mi cutoff i fuel last st = .ok res →
      res.1.1.map Prod.fst = st.1.map Prod.fst := by
  intro fuel
  induction fuel with
  | zero =>
    intro i last st res h
    simp only [loopGo] at h
    obtain rfl := (Except.ok.inj h).symm
    rfl
  | succ fuel ih =>
    intro i last st res h
    simp only [loopGo] at h
    split at h
    · exact absurd h (by simp)
    rename_i st' hsweep
    split at h
    · obtain rfl := (Except.ok.inj h).symm
      exact sweepGo_keys rng obj bnds i mi st.1 st.2 st' hsweep
    · calc res.1.1.map Prod.fst = st'.1.map Prod.fst := ih (i + 1) (some i) st' res h
        _ = st.1.map Prod.fst := sweepGo_keys rng obj bnds i mi st.1 st.2 st' hsweep

/-- With nonzero fuel, a successful loop run ends in the output of some
successful sweep. -/
theorem loopGo_out (rng : ℕ → ℚ) (obj : String) (bnds : List (String × (ℚ × ℚ)))
    (mi : ℕ) (cutoff : ℚ) :
    ∀ (fuel i : ℕ) (last : Option ℕ) (st : List (String × PValue) × ℕ)
      (res : (List (String × PValue) × ℕ) × Option ℕ),
      loopGo rng obj bnds mi cutoff i fuel last st = .ok res →
      (fuel = 0 ∧ res.1 = st) ∨
      ∃ j entries c, sweepGo rng obj bnds j mi entries c = .ok res.1 := by
  intro fuel
  induction fuel with
  | zero =>
    intro i last st res h
    simp only [loopGo] at h
    obtain rfl := (Except.ok.inj h).symm
    exact Or.inl ⟨rfl, rfl⟩
  | succ fuel ih =>
    intro i last st res h
    simp only [loopGo] at h
    split at h
    · exact absurd h (by simp)
    rename_i st' hsweep
    split at h
    · obtain rfl := (Except.ok.inj h).symm
      exact Or.inr ⟨i, st.1, st.2, hsweep⟩
    · rcases ih (i + 1) (some i) st' res h with ⟨_, hst⟩ | hr
      · rw [hst]
        exact Or.inr ⟨i, st.1, st.2, hsweep⟩
      · exact Or.inr hr

/-- Unfolding `lookupBounds` over a cons cell. -/
theorem lookupBounds_cons (k0 : String) (B : ℚ × ℚ) (tl : List (String × (ℚ × ℚ)))
    (k : String) :
    lookupBounds ((k0, B) :: tl) k = if k0 == k then some B else lookupBounds tl k := by
  simp only [lookupBounds, List.find?]
  cases hkk : (k0 == k) <;> simp [hkk]

/-- The bounds resolver covers every key of the parameter map. -/
theorem lookupBounds_covers (params : ParameterMap) :
    ∀ k, k ∈ params.map Prod.fst →
      ∃ b, lookupBounds (defineParameterBounds params) k = some b := by
  induction params with
  | nil => intro k hk; simp at hk
  | cons e rest ih =>
    intro k hk
    obtain ⟨k0, v0⟩ := e
    simp only [defineParameterBounds, List.map_cons] at *
    rw [lookupBounds_cons]
    by_cases hkk : k0 == k
    · rw [if_pos hkk]
      exact ⟨resolveBound k0 v0, rfl⟩
    · rw [if_neg hkk]
      rcases List.mem_cons.mp hk with rfl | hmem
      · simp at hkk
      · exact ih k hmem

/-- Inversion of a successful `optimize` call. -/
theorem optimize_inv {rng : ℕ → ℚ} {now : String} {mi : ℕ} {p : ParameterMap}
    {obj : String} {r : OptimizationResult}
    (h : optimize rng now mi p obj = .ok r) :
    ∃ sim recs,
      simulateOptimization rng mi (selectAlgorithm p obj) p obj
        (defineParameterBounds p) = .ok sim ∧
      generateRecommendations p sim obj = .ok recs ∧
      r = { timestamp := now
            algorithm := selectAlgorithm p obj
            objective := obj
            originalParameters := p
            optimizedParameters := sim.optimizedParameters
            improvementPct := sim.improvementPct
            convergenceIterations := sim.iterations
            optimizationScore := sim.score
            recommendations := recs
            confidenceLevel := sim.confidence } := by
  simp only [optimize] at h
  split at h
  · exact absurd h (by simp)
  rename_i sim hsim
  split at h
  · exact absurd h (by simp)
  rename_i recs hrecs
  exact ⟨sim, recs, hsim, hrecs, (Except.ok.inj h).symm⟩

/-- The timestamp of a successful result is the wall-clock string captured
at call time. -/
theorem optimize_timestamp {rng : ℕ → ℚ} {now : String} {mi : ℕ} {p : ParameterMap}
    {obj : String} {r : OptimizationResult}
    (h : optimize rng now mi p obj = .ok r) : r.timestamp = now := by
  obtain ⟨sim, recs, -, -, hr⟩ := optimize_inv h
  rw [hr]

/-- Reduction of the `do`-notation bind on a successful `Except`. -/
@[simp] theorem except_ok_bind {epsilon alpha beta : Type} (a : alpha)
    (f : alpha → Except epsilon beta) :
    (Except.ok a : Except epsilon alpha) >>= f = f a := rfl

/-- Reduction of the `do`-notation bind on a failed `Except`. -/
@[simp] theorem except_error_bind {epsilon alpha beta : Type} (e : epsilon)
    (f : alpha → Except epsilon beta) :
    (Except.error e : Except epsilon alpha) >>= f = .error e := rfl

/-- `pure` on `Except` is `ok`. -/
@[simp] theorem except_pure_eq {epsilon alpha : Type} (a : alpha) :
    (pure a : Except epsilon alpha) = .ok a := rfl

/-- A value found by dict lookup is one of the map's values. -/
theorem lookupVal_mem_values {m : ParameterMap} {k : String} {v : PValue}
    (h : lookupVal m k = some v) : v ∈ m.map Prod.snd := by
  unfold lookupVal at h
  cases hf : m.find? (fun e => e.1 == k) with
  | none => rw [hf] at h; simp at h
  | some pr =>
    rw [hf] at h
    rw [show (Option.map (fun e => e.2) (some pr)) = some pr.2 from rfl] at h
    obtain rfl := (Option.some.inj h)
    exact List.mem_map_of_mem Prod.snd (List.mem_of_find?_eq_some hf)

/-- On an all-numeric map, `get` with a numeric default never raises. -/
theorem getParamQ_ok {m : ParameterMap} (hnum : allNumericB m = true)
    (k : String) (d : ℚ) : ∃ q, getParamQ m k d = .ok q := by
  unfold getParamQ
  cases hv : lookupVal m k with
  | none => exact ⟨d, rfl⟩
  | some v =>
    cases v with
    | num q => exact ⟨q, rfl⟩
    | other s =>
      have hvm := lookupVal_mem_values hv
      simp only [allNumericB, List.all_eq_true] at hnum
      obtain ⟨kv, hkvm, hkv⟩ := List.mem_map.mp hvm
      have := hnum kv hkvm
      rw [hkv] at this
      simp [PValue.isNum] at this

/-- The recovery estimator never raises on all-numeric maps. -/
theorem estimateRecovery_ok {p : ParameterMap} (h : allNumericB p = true) :
    ∃ v, estimateRecovery p = .ok v := by
  obtain ⟨t, ht⟩ := getParamQ_ok h "temperature" 65
  obtain ⟨a, ha⟩ := getParamQ_ok h "acid_concentration" (3/2)
  obtain ⟨ti, hti⟩ := getParamQ_ok h "leaching_time" 8
  obtain ⟨g, hg⟩ := getParamQ_ok h "ore_grade" (5/2)
  exact ⟨_, by simp only [estimateRecovery, ht, ha, hti, hg, except_ok_bind, except_pure_eq]; rfl⟩

/-- The purity estimator never raises on all-numeric maps. -/
theorem estimatePurity_ok {p : ParameterMap} (h : allNumericB p = true) :
    ∃ v, estimatePurity p = .ok v := by
  obtain ⟨a, ha⟩ := getParamQ_ok h "voltage" (11/5)
  obtain ⟨b, hb⟩ := getParamQ_ok h "current_density" 300
  obtain ⟨c, hc⟩ := getParamQ_ok h "temperature" 60
  exact ⟨_, by simp only [estimatePurity, ha, hb, hc, except_ok_bind, except_pure_eq]; rfl⟩

/-- The energy-efficiency estimator never raises on all-numeric maps. -/
theorem estimateEnergyEfficiency_ok {p : ParameterMap} (h : allNumericB p = true) :
    ∃ v, estimateEnergyEfficiency p = .ok v := by
  obtain ⟨a, ha⟩ := getParamQ_ok h "voltage" (11/5)
  obtain ⟨b, hb⟩ := getParamQ_ok h "temperature" 65
  obtain ⟨c, hc⟩ := getParamQ_ok h "leaching_time" 8
  exact ⟨_, by simp only [estimateEnergyEfficiency, ha, hb, hc, except_ok_bind, except_pure_eq]; rfl⟩

/-- The reagent-cost estimator never raises on all-numeric maps. -/
theorem estimateReagentCost_ok {p : ParameterMap} (h : allNumericB p = true) :
    ∃ v, estimateReagentCost p = .ok v := by
  obtain ⟨a, ha⟩ := getParamQ_ok h "acid_concentration" (3/2)
  obtain ⟨b, hb⟩ := getParamQ_ok h "reagent_dosage" 2
  exact ⟨_, by simp only [estimateReagentCost, ha, hb, except_ok_bind, except_pure_eq]; rfl⟩

/-- The energy-cost estimator never raises on all-numeric maps. -/
theorem estimateEnergyCost_ok {p : ParameterMap} (h : allNumericB p = true) :
    ∃ v, estimateEnergyCost p = .ok v := by
  obtain ⟨a, ha⟩ := getParamQ_ok h "voltage" (11/5)
  obtain ⟨b, hb⟩ := getParamQ_ok h "temperature" 65
  obtain ⟨c, hc⟩ := getParamQ_ok h "leaching_time" 8
  exact ⟨_, by simp only [estimateEnergyCost, ha, hb, hc, except_ok_bind, except_pure_eq]; rfl⟩

/-- The time-cost estimator never raises on all-numeric maps. -/
theorem estimateTimeCost_ok {p : ParameterMap} (h : allNumericB p = true) :
    ∃ v, estimateTimeCost p = .ok v := by
  obtain ⟨a, ha⟩ := getParamQ_ok h "leaching_time" 8
  obtain ⟨b, hb⟩ := getParamQ_ok h "retention_time" a
  exact ⟨_, by simp only [estimateTimeCost, ha, hb, except_ok_bind, except_pure_eq]; rfl⟩

/-- The processing-time estimator never raises on all-numeric maps. -/
theorem estimateProcessingTime_ok {p : ParameterMap} (h : allNumericB p = true) :
    ∃ v, estimateProcessingTime p = .ok v := by
  obtain ⟨a, ha⟩ := getParamQ_ok h "leaching_time" 8
  obtain ⟨b, hb⟩ := getParamQ_ok h "temperature" 65
  obtain ⟨c, hc⟩ := getParamQ_ok h "acid_concentration" (3/2)
  exact ⟨_, by simp only [estimateProcessingTime, ha, hb, hc, except_ok_bind, except_pure_eq]; rfl⟩

/-- The objective evaluator never raises on all-numeric maps, for every
objective name. -/
theorem calculateObjectiveValue_ok {p : ParameterMap} (h : allNumericB p = true)
    (obj : String) : ∃ v, calculateObjectiveValue p obj = .ok v := by
  unfold calculateObjectiveValue
  split_ifs
  · obtain ⟨a, ha⟩ := estimateRecovery_ok h
    obtain ⟨b, hb⟩ := estimateEnergyEfficiency_ok h
    exact ⟨_, by simp only [ha, hb, except_ok_bind, except_pure_eq]; rfl⟩
  · obtain ⟨a, ha⟩ := estimateReagentCost_ok h
    obtain ⟨b, hb⟩ := estimateEnergyCost_ok h
    obtain ⟨c, hc⟩ := estimateTimeCost_ok h
    exact ⟨_, by simp only [ha, hb, hc, except_ok_bind, except_pure_eq]; rfl⟩
  · exact estimatePurity_ok h
  · exact estimateProcessingTime_ok h
  · obtain ⟨a, ha⟩ := estimateRecovery_ok h
    obtain ⟨b, hb⟩ := estimateReagentCost_ok h
    exact ⟨_, by simp only [ha, hb, except_ok_bind, except_pure_eq]; rfl⟩

/-- A bounds pair found by lookup is one of the list's entries. -/
theorem lookupBounds_some_mem {bnds : List (String × (ℚ × ℚ))} {k : String}
    {b : ℚ × ℚ} (h : lookupBounds bnds k = some b) : ∃ pr ∈ bnds, pr.2 = b := by
  unfold lookupBounds at h
  cases hf : bnds.find? (fun e => e.1 == k) with
  | none => rw [hf] at h; simp at h
  | some pr =>
    rw [hf] at h
    rw [show (Option.map (fun e => e.2) (some pr)) = some pr.2 from rfl] at h
    exact ⟨pr, List.mem_of_find?_eq_some hf, Option.some.inj h⟩

/-- On an all-numeric map with proper bounds, a sweep never raises and
keeps the map all-numeric. -/
theorem sweepGo_ok (rng : ℕ → ℚ) (obj : String) (bnds : List (String × (ℚ × ℚ)))
    (i mi : ℕ) (hB : boundsProperB bnds = true) :
    ∀ (entries : List (String × PValue)) (c : ℕ), allNumericB entries = true →
      ∃ out c', sweepGo rng obj bnds i mi entries c = .ok (out, c') ∧
        allNumericB out = true := by
  intro entries
  induction entries with
  | nil => intro c _; exact ⟨[], c, rfl, rfl⟩
  | cons e rest ih =>
    intro c hnum
    obtain ⟨k0, v0⟩ := e
    simp only [allNumericB, List.all_cons, Bool.and_eq_true] at hnum
    obtain ⟨hnum0, hnumrest⟩ := hnum
    cases v0 with
    | other s => simp [PValue.isNum] at hnum0
    | num q0 =>
      cases hb : lookupBounds bnds k0 with
      | none =>
        obtain ⟨out, c', hok, hnout⟩ := ih c hnumrest
        refine ⟨(k0, .num q0) :: out, c', ?_, ?_⟩
        · simp [sweepGo, hb, hok]
        · simp only [allNumericB, List.all_cons, Bool.and_eq_true]
          exact ⟨rfl, hnout⟩
      | some b =>
        obtain ⟨lo, hi⟩ := b
        have hlohi : lo ≤ hi := by
          obtain ⟨pr, hprm, hpr⟩ := lookupBounds_some_mem hb
          simp only [boundsProperB, List.all_eq_true] at hB
          have := hB pr hprm
          rw [hpr] at this
          exact of_decide_eq_true this
        have hscale : ¬ ((hi - lo) * (5/100) < 0) := by
          intro hlt
          nlinarith
        obtain ⟨out, c', hok, hnout⟩ := ih (c + 1) hnumrest
        refine ⟨(k0, .num (npClip
            (q0 + (hi - lo) * (5/100) * rng c * improvementFactor k0 obj i mi)
            lo hi)) :: out, c', ?_, ?_⟩
        · simp [sweepGo, hb, hok, hscale]
        · simp only [allNumericB, List.all_cons, Bool.and_eq_true]
          exact ⟨rfl, hnout⟩

/-- On an all-numeric map with proper bounds, the iteration loop never
raises, keeps the map all-numeric, and with nonzero fuel always binds the
loop variable. -/
theorem loopGo_ok (rng : ℕ → ℚ) (obj : String) (bnds : List (String × (ℚ × ℚ)))
    (mi : ℕ) (cutoff : ℚ) (hB : boundsProperB bnds = true) :
    ∀ (fuel i : ℕ) (last : Option ℕ) (entries : List (String × PValue)) (c : ℕ),
      allNumericB entries = true →
      ∃ out c' l, loopGo rng obj bnds mi cutoff i fuel last (entries, c) =
          .ok ((out, c'), l) ∧ allNumericB out = true ∧
        (l = last ∨ ∃ j, l = some j) ∧ (fuel ≠ 0 → ∃ j, l = some j) := by
  intro fuel
  induction fuel with
  | zero =>
    intro i last entries c hnum
    exact ⟨entries, c, last, rfl, hnum, Or.inl rfl, fun hf => absurd rfl hf⟩
  | succ fuel ih =>
    intro i last entries c hnum
    obtain ⟨out1, c1, hsw, hn1⟩ := sweepGo_ok rng obj bnds i mi hB entries c hnum
    by_cases hgt : (i : ℚ) > cutoff
    · refine ⟨out1, c1, some i, ?_, hn1, Or.inr ⟨i, rfl⟩, fun _ => ⟨i, rfl⟩⟩
      simp only [loopGo]
      rw [hsw]
      dsimp only
      rw [if_pos hgt]
    · obtain ⟨out2, c2, l2, hl, hn2, hlast2, -⟩ := ih (i + 1) (some i) out1 c1 hn1
      have hsome : ∃ j, l2 = some j := by
        rcases hlast2 with rfl | h2
        · exact ⟨i, rfl⟩
        · exact h2
      refine ⟨out2, c2, l2, ?_, hn2, Or.inr hsome, fun _ => hsome⟩
      simp only [loopGo]
      rw [hsw]
      dsimp only
      rw [if_neg hgt]
      exact hl

/-- `_select_algorithm` always returns a key of the algorithms table. -/
theorem selectAlgorithm_valid (p : ParameterMap) (obj : String) :
    ∃ info, optimizationAlgorithms (selectAlgorithm p obj) = some info := by
  simp only [selectAlgorithm]
  split_ifs <;> exact ⟨_, rfl⟩


/-- Forward assembly of a successful `_simulate_optimization` run from
its components. -/
theorem simulateOptimization_eq (rng : ℕ → ℚ) (mi : ℕ) (alg : String)
    (p : ParameterMap) (obj : String) (bnds : List (String × (ℚ × ℚ)))
    (info : AlgInfo) (b : ℚ) (st1 : List (String × PValue)) (c' j : ℕ) (o' : ℚ)
    (hinfo : optimizationAlgorithms alg = some info)
    (hb : calculateObjectiveValue p obj = .ok b)
    (hloop : loopGo rng obj bnds mi ((mi : ℚ) * info.convergenceRate) 0 mi none (p, 0) =
      .ok ((st1, c'), some j))
    (ho : calculateObjectiveValue st1 obj = .ok o')
    (hb0 : b ≠ 0) :
    simulateOptimization rng mi alg p obj bnds = .ok
      { optimizedParameters := st1
        improvementPct :=
          max 0 (min 50 ((if pyIn "minimize" obj then b - o' else o' - b) / b * 100))
        iterations := j + 1
        score :=
          min 100 (70 + max 0 (min 50
            ((if pyIn "minimize" obj then b - o' else o' - b) / b * 100)) * (6/10))
        confidence :=
          max (1/2) (info.convergenceRate - min (1/5) ((p.length : ℚ) * (2/100))) } := by
  unfold simulateOptimization
  rw [hinfo, hb]
  dsimp only
  rw [hloop]
  dsimp only
  rw [ho]
  dsimp only
  rw [if_neg hb0]

/-- Forward assembly of a `ZeroDivisionError` from a vanishing baseline. -/
theorem simulateOptimization_eq_zeroDiv (rng : ℕ → ℚ) (mi : ℕ) (alg : String)
    (p : ParameterMap) (obj : String) (bnds : List (String × (ℚ × ℚ)))
    (info : AlgInfo) (st : List (String × PValue) × ℕ) (l : Option ℕ) (o' : ℚ)
    (hinfo : optimizationAlgorithms alg = some info)
    (hb : calculateObjectiveValue p obj = .ok 0)
    (hloop : loopGo rng obj bnds mi ((mi : ℚ) * info.convergenceRate) 0 mi none (p, 0) =
      .ok (st, l))
    (ho : calculateObjectiveValue st.1 obj = .ok o') :
    simulateOptimization rng mi alg p obj bnds = .error .zeroDivision := by
  unfold simulateOptimization
  rw [hinfo, hb]
  dsimp only
  rw [hloop]
  dsimp only
  rw [ho]
  dsimp only
  rw [if_pos rfl]

/-- Forward assembly of a successful `optimize` call from its two
fallible components. -/
theorem optimize_eq (rng : ℕ → ℚ) (now : String) (mi : ℕ) (p : ParameterMap)
    (obj : String) (sim : SimResult) (recs : List String)
    (hsim : simulateOptimization rng mi (selectAlgorithm p obj) p obj
      (defineParameterBounds p) = .ok sim)
    (hrecs : generateRecommendations p sim obj = .ok recs) :
    optimize rng now mi p obj = .ok
      { timestamp := now
        algorithm := selectAlgorithm p obj
        objective := obj
        originalParameters := p
        optimizedParameters := sim.optimizedParameters
        improvementPct := sim.improvementPct
        convergenceIterations := sim.iterations
        optimizationScore := sim.score
        recommendations := recs
        confidenceLevel := sim.confidence } := by
  simp only [optimize]
  rw [hsim]
  dsimp only
  rw [hrecs]

/-- The per-parameter recommendation loop never raises when every shared
parameter is numeric on both sides with a nonzero original value. -/
theorem dirRecsGo_ok (original : ParameterMap) :
    ∀ entries : List (String × PValue),
      (∀ kv ∈ entries, ∀ gv, lookupVal original kv.1 = some gv →
        ∃ qo qg, kv.2 = PValue.num qo ∧ gv = PValue.num qg ∧ qg ≠ 0) →
      ∃ l, dirRecsGo original entries = .ok l := by
  intro entries
  induction entries with
  | nil => intro _; exact ⟨[], rfl⟩
  | cons e rest ih =>
    intro H
    obtain ⟨k0, v0⟩ := e
    obtain ⟨lr, hlr⟩ := ih (fun kv hm => H kv (List.mem_cons_of_mem _ hm))
    cases hg : lookupVal original k0 with
    | none => exact ⟨lr, by simp [dirRecsGo, hg, hlr]⟩
    | some gv =>
      obtain ⟨qo, qg, hov, hgv, hqg⟩ := H (k0, v0) (List.mem_cons_self _ _) gv hg
      subst hov
      subst hgv
      by_cases hth : qabs (qo - qg) / qg > 5/100
      · exact ⟨_, by simp only [dirRecsGo, hg, hlr]; rw [if_neg hqg, if_pos hth]⟩
      · exact ⟨lr, by simp only [dirRecsGo, hg, hlr]; rw [if_neg hqg, if_neg hth]⟩

/-- The recommendation generator succeeds with a non-empty list whenever
the per-parameter loop succeeds. -/
theorem generateRecommendations_ok (original : ParameterMap) (sim : SimResult)
    (objective : String)
    (H : ∀ kv ∈ sim.optimizedParameters, ∀ gv, lookupVal original kv.1 = some gv →
      ∃ qo qg, kv.2 = PValue.num qo ∧ gv = PValue.num qg ∧ qg ≠ 0) :
    ∃ l, generateRecommendations original sim objective = .ok l ∧ l ≠ [] := by
  obtain ⟨dirs, hdirs⟩ := dirRecsGo_ok original sim.optimizedParameters H
  unfold generateRecommendations
  rw [hdirs]
  refine ⟨_, rfl, ?_⟩
  intro hnil
  have hlen := congrArg List.length hnil
  simp only [List.length_append, List.length_cons, List.length_nil] at hlen
  omega

/-- `optimize` succeeds whenever the parameter map is numeric with
nonzero values, its resolved bounds are proper, the iteration budget is
positive and the baseline does not vanish; the result carries the given
timestamp, and every original key survives with a numeric value. -/
theorem optimize_ok (rng : ℕ → ℚ) (now : String) (mi : ℕ) (p : ParameterMap)
    (obj : String) (b : ℚ)
    (hmi : mi ≠ 0)
    (hnum : allNumericB p = true)
    (hB : boundsProperB (defineParameterBounds p) = true)
    (hnz : valsNumNonzeroB p = true)
    (hb : calculateObjectiveValue p obj = .ok b) (hb0 : b ≠ 0) :
    ∃ r, optimize rng now mi p obj = .ok r ∧ r.timestamp = now ∧
      (∀ k, k ∈ p.map Prod.fst → ∃ q, (k, PValue.num q) ∈ r.optimizedParameters) := by
  obtain ⟨info, hinfo⟩ := selectAlgorithm_valid p obj
  obtain ⟨out, c', l, hloop, hnout, -, hsome⟩ :=
    loopGo_ok rng obj (defineParameterBounds p) mi ((mi : ℚ) * info.convergenceRate)
      hB mi 0 none p 0 hnum
  obtain ⟨j, rfl⟩ := hsome hmi
  obtain ⟨o', ho⟩ := calculateObjectiveValue_ok hnout obj
  have hsim := simulateOptimization_eq rng mi (selectAlgorithm p obj) p obj
    (defineParameterBounds p) info b out c' j o' hinfo hb hloop ho hb0
  have hkeys : out.map Prod.fst = p.map Prod.fst :=
    loopGo_keys rng obj (defineParameterBounds p) mi ((mi : ℚ) * info.convergenceRate)
      mi 0 none (p, 0) ((out, c'), some j) hloop
  have H : ∀ kv ∈ out, ∀ gv, lookupVal p kv.1 = some gv →
      ∃ qo qg, kv.2 = PValue.num qo ∧ gv = PValue.num qg ∧ qg ≠ 0 := by
    intro kv hkv gv hgv
    simp only [allNumericB, List.all_eq_true] at hnout
    have h1 := hnout kv hkv
    have h2 := lookupVal_mem_values hgv
    obtain ⟨kv2, hkv2m, hkv2⟩ := List.mem_map.mp h2
    simp only [valsNumNonzeroB, List.all_eq_true] at hnz
    have h3 := hnz kv2 hkv2m
    cases hv1 : kv.2 with
    | other s => rw [hv1] at h1; simp [PValue.isNum] at h1
    | num qo =>
      cases hv2 : kv2.2 with
      | other s => rw [hv2] at h3; simp at h3
      | num qg =>
        rw [hv2] at h3
        simp only [decide_eq_true_eq] at h3
        exact ⟨qo, qg, rfl, by rw [← hkv2, hv2], h3⟩
  obtain ⟨recs, hrecs, -⟩ := generateRecommendations_ok p
    { optimizedParameters := out
      improvementPct :=
        max 0 (min 50 ((if pyIn "minimize" obj then b - o' else o' - b) / b * 100))
      iterations := j + 1
      score :=
        min 100 (70 + max 0 (min 50
          ((if pyIn "minimize" obj then b - o' else o' - b) / b * 100)) * (6/10))
      confidence :=
        max (1/2) (info.convergenceRate - min (1/5) ((p.length : ℚ) * (2/100))) }
    obj H
  refine ⟨_, optimize_eq rng now mi p obj _ recs hsim hrecs, rfl, ?_⟩
  intro k hk
  rw [← hkeys] at hk
  obtain ⟨kv, hkvm, hkveq⟩ := List.mem_map.mp hk
  simp only [allNumericB, List.all_eq_true] at hnout
  have h1 := hnout kv hkvm
  cases hv : kv.2 with
  | other s => rw [hv] at h1; simp [PValue.isNum] at h1
  | num q =>
    refine ⟨q, ?_⟩
    have : kv = (k, PValue.num q) := by
      obtain ⟨a, bb⟩ := kv
      simp only at hkveq hv
      rw [hkveq, hv]
    rw [← this]
    exact hkvm

/-- `optimize` dies with an unhandled `ZeroDivisionError` whenever the
baseline objective value is exactly 0 (on a numeric map with proper
bounds, so that nothing fails earlier). -/
theorem optimize_zeroDiv (rng : ℕ → ℚ) (now : String) (mi : ℕ) (p : ParameterMap)
    (obj : String)
    (hnum : allNumericB p = true)
    (hB : boundsProperB (defineParameterBounds p) = true)
    (hb : calculateObjectiveValue p obj = .ok 0) :
    optimize rng now mi p obj = .error .zeroDivision := by
  obtain ⟨info, hinfo⟩ := selectAlgorithm_valid p obj
  obtain ⟨out, c', l, hloop, hnout, -, -⟩ :=
    loopGo_ok rng obj (defineParameterBounds p) mi ((mi : ℚ) * info.convergenceRate)
      hB mi 0 none p 0 hnum
  obtain ⟨o', ho⟩ := calculateObjectiveValue_ok hnout obj
  have hsim := simulateOptimization_eq_zeroDiv rng mi (selectAlgorithm p obj) p obj
    (defineParameterBounds p) info (out, c') l o' hinfo hb hloop ho
  simp only [optimize]
  rw [hsim]

/-- If every sweep leaves the parameter state unchanged (advancing the
stream counter by a fixed amount), a loop run with nonzero fuel ends in
that same state with the loop variable bound. -/
theorem loopGo_stationary (rng : ℕ → ℚ) (obj : String)
    (bnds : List (String × (ℚ × ℚ))) (mi : ℕ) (cutoff : ℚ)
    (entries : List (String × PValue)) (k : ℕ)
    (hstat : ∀ j c, sweepGo rng obj bnds j mi entries c = .ok (entries, c + k)) :
    ∀ (fuel i : ℕ) (last : Option ℕ) (c : ℕ), fuel ≠ 0 →
      ∃ c' l, loopGo rng obj bnds mi cutoff i fuel last (entries, c) =
        .ok ((entries, c'), some l) := by
  intro fuel
  induction fuel with
  | zero => intro i last c hf; exact absurd rfl hf
  | succ fuel ih =>
    intro i last c _
    by_cases hgt : (i : ℚ) > cutoff
    · refine ⟨c + k, i, ?_⟩
      simp only [loopGo]
      rw [hstat i c]
      dsimp only
      rw [if_pos hgt]
    · cases fuel with
      | zero =>
        refine ⟨c + k, i, ?_⟩
        simp only [loopGo]
        rw [hstat i c]
        dsimp only
        rw [if_neg hgt]
      | succ fuel' =>
        obtain ⟨c2, l2, hl⟩ := ih (i + 1) (some i) (c + k) (by simp)
        refine ⟨c2, l2, ?_⟩
        simp only [loopGo]
        rw [hstat i c]
        dsimp only
        rw [if_neg hgt]
        exact hl


/-- Claim C1 (code_bug): the claim and spec require an
`InvalidBaselineError` when the baseline objective value is ≤ 0.  The
code has no such guard: on parameters `{temperature: 25}` under
`maximize_efficiency` the baseline is exactly 0 (the temperature factor
`(25-25)/60` vanishes), and the configured `optimize` call dies with an
unhandled `ZeroDivisionError` from `improvement / baseline` instead of
the required `InvalidBaselineError` (no such error exists in the code;
for a strictly negative baseline the code silently reports a clamped
percentage instead of raising). -/
theorem C1_invalid_baseline_code_bug :
    calculateObjectiveValue [("temperature", PValue.num 25)] "maximize_efficiency" =
      .ok 0 ∧
    optimize rng0 "t" OPTIMIZATION_ITERATIONS [("temperature", PValue.num 25)]
      "maximize_efficiency" = .error PyErr.zeroDivision := by
  constructor
  · decide
  · exact optimize_zeroDiv rng0 "t" OPTIMIZATION_ITERATIONS
      [("temperature", PValue.num 25)] "maximize_efficiency"
      (by decide) (by decide) (by decide)

/-- Claim C4 (code_bug): with `max_iterations = 0` the claim requires the
call to complete with unchanged parameters and improvement 0.  The loop
indeed never runs (first conjunct: the loop returns the parameters
unchanged, with no iteration index ever bound), but `optimize` then
crashes with a `NameError` reading the unbound loop variable in
`'iterations': iteration + 1`, instead of completing. -/
theorem C4_zero_iterations_code_bug :
    loopGo rng0 "maximize_efficiency"
      (defineParameterBounds [("temperature", PValue.num 65)]) 0 0 0 0 none
      ([("temperature", PValue.num 65)], 0) =
      .ok (([("temperature", PValue.num 65)], 0), none) ∧
    optimize rng0 "t" 0 [("temperature", PValue.num 65)] "maximize_efficiency" =
      .error PyErr.nameError := by
  constructor
  · decide
  · decide

/-- Claim C9 (confirmed): on the empty parameter map the objective
evaluator never fails, for every objective name (the four named
objectives and the composite default): every sub-estimator substitutes
its documented industry default (e.g. temperature defaults to 65) and the
baseline is a (finite) rational. -/
theorem C9_empty_map_defaults :
    (∀ objective : String, ∃ q : ℚ, calculateObjectiveValue [] objective = .ok q) ∧
    getParamQ [] "temperature" 65 = .ok 65 := by
  constructor
  · intro objective
    unfold calculateObjectiveValue
    split_ifs with h1 h2 h3 h4
    · exact ⟨3/32, by decide⟩
    · exact ⟨872, by decide⟩
    · exact ⟨693/1000, by decide⟩
    · exact ⟨8, by decide⟩
    · exact ⟨25/128, by decide⟩
  · decide

/-- Claim C5 counterexample: for the unknown parameter `custom_param`
with numeric value −1 the resolved fallback bounds are (0.1, −2), and the
value lies inside them in neither direction (the bounds are even
inverted), refuting the claim for "every numeric v, including v ≤ 0". -/
theorem C5_counterexample :
    defineParameterBounds [("custom_param", PValue.num (-1))] =
      [("custom_param", ((1/10 : ℚ), -2))] ∧
    ¬ ((1/10 : ℚ) ≤ -1) ∧ ¬ ((-1 : ℚ) ≤ -2) := by
  refine ⟨by decide, by norm_num, by norm_num⟩

/-- Claim C5 (amended): for an unknown numeric parameter the resolved
bounds are `(max(0.1, v*0.5), v*2.0)` for every numeric value v, but the
value lies inside its own bounds only when `v ≥ 0.1`. -/
theorem C5_fallback_bounds_amended (k : String) (v : ℚ)
    (h : standardBounds k = none) :
    defineParameterBounds [(k, PValue.num v)] =
      [(k, (max (1/10) (v * (1/2)), v * 2))] ∧
    ((1/10 : ℚ) ≤ v → max (1/10) (v * (1/2)) ≤ v ∧ v ≤ v * 2) := by
  constructor
  · simp [defineParameterBounds, resolveBound, h]
  · intro hv
    constructor
    · exact max_le (by linarith) (by linarith)
    · linarith

/-- Witness for C5: instantiated at the unknown parameter `custom_param`
with value 1. -/
theorem C5_witness :
    defineParameterBounds [("custom_param", PValue.num 1)] =
      [("custom_param", (max (1/10) ((1:ℚ) * (1/2)), (1:ℚ) * 2))] ∧
    max (1/10) ((1:ℚ) * (1/2)) ≤ 1 := by
  have h := C5_fallback_bounds_amended "custom_param" 1 (by decide)
  exact ⟨h.1, (h.2 (by norm_num)).1⟩

/-- Claim C3 (confirmed): whenever `optimize` (with the configured 100
iterations) returns a result on a numeric-valued parameter map under one
of the four named objectives, every numeric optimized value lies within
that parameter's resolved bounds.  (A successful run forces every drawn
scale `(upper-lower)*0.05` to be non-negative — a negative scale raises
`ValueError` inside `np.random.normal` — so every perturbed parameter had
`lower ≤ upper` and the final clip landed inside the bounds.) -/
theorem C3_bounds_invariant (rng : ℕ → ℚ) (now : String) (params : ParameterMap)
    (objective : String) (r : OptimizationResult)
    (hnum : allNumericB params = true)
    (hobj : objective = "maximize_efficiency" ∨ objective = "minimize_cost" ∨
            objective = "maximize_purity" ∨ objective = "minimize_time")
    (h : optimize rng now OPTIMIZATION_ITERATIONS params objective = .ok r) :
    ∀ k q, (k, PValue.num q) ∈ r.optimizedParameters →
      ∃ lo hi, lookupBounds (defineParameterBounds params) k = some (lo, hi) ∧
        lo ≤ q ∧ q ≤ hi := by
  intro k q hmem
  obtain ⟨sim, recs, hsim, hrecs, hr⟩ := optimize_inv h
  obtain ⟨info, b, st, i, o', hinfo, hb, hloop, ho, hb0, hsimr⟩ :=
    simulateOptimization_inv hsim
  have hmem' : (k, PValue.num q) ∈ st.1 := by
    rw [hr, hsimr] at hmem
    exact hmem
  rcases loopGo_out rng objective (defineParameterBounds params) OPTIMIZATION_ITERATIONS
      ((OPTIMIZATION_ITERATIONS : ℚ) * info.convergenceRate) OPTIMIZATION_ITERATIONS 0
      none (params, 0) (st, some i) hloop with ⟨hfuel, -⟩ | ⟨j, entries, c, hsweep⟩
  · exact absurd hfuel (by decide)
  · rcases sweepGo_clips rng objective (defineParameterBounds params) j
        OPTIMIZATION_ITERATIONS entries c st hsweep k q hmem' with ⟨hnone, -⟩ | hin
    · have hkkeys : k ∈ st.1.map Prod.fst :=
        List.mem_map.mpr ⟨(k, PValue.num q), hmem', rfl⟩
      rw [loopGo_keys rng objective (defineParameterBounds params) OPTIMIZATION_ITERATIONS
            ((OPTIMIZATION_ITERATIONS : ℚ) * info.convergenceRate) OPTIMIZATION_ITERATIONS
            0 none (params, 0) (st, some i) hloop] at hkkeys
      obtain ⟨bnd, hbnd⟩ := lookupBounds_covers params k hkkeys
      rw [hbnd] at hnone
      exact absurd hnone (by simp)
    · exact hin

/-- Witness for C3: the configured run on `{temperature: 65}` under
`maximize_efficiency` succeeds, and the optimized temperature lies inside
its resolved bounds (15, 95). -/
theorem C3_witness :
    ∃ q lo hi,
      lookupBounds (defineParameterBounds [("temperature", PValue.num 65)])
        "temperature" = some (lo, hi) ∧ lo ≤ q ∧ q ≤ hi := by
  obtain ⟨r, hr, -, hkeys⟩ := optimize_ok rng0 "t" OPTIMIZATION_ITERATIONS
    [("temperature", PValue.num 65)] "maximize_efficiency" (3/32)
    (by decide) (by decide) (by decide) (by decide) (by decide) (by norm_num)
  obtain ⟨q, hq⟩ := hkeys "temperature" (by decide)
  obtain ⟨lo, hi, hbnd, hlo, hhi⟩ := C3_bounds_invariant rng0 "t"
    [("temperature", PValue.num 65)] "maximize_efficiency" r
    (by decide) (Or.inl rfl) hr "temperature" q hq
  exact ⟨q, lo, hi, hbnd, hlo, hhi⟩

/-- Claim C10 (confirmed): every completed `optimize` call has an
optimization score in [70, 100]: the score is
`min(100, 70 + improvement_pct * 0.6)` and the clamped improvement
percentage is non-negative, so 70 is a hard lower bound (tighter than the
spec's stated [0, 100]). -/
theorem C10_score_range (rng : ℕ → ℚ) (now : String) (mi : ℕ) (p : ParameterMap)
    (objective : String) (r : OptimizationResult)
    (h : optimize rng now mi p objective = .ok r) :
    70 ≤ r.optimizationScore ∧ r.optimizationScore ≤ 100 := by
  obtain ⟨sim, recs, hsim, hrecs, hr⟩ := optimize_inv h
  obtain ⟨info, b, st, i, o', hinfo, hb, hloop, ho, hb0, hsimr⟩ :=
    simulateOptimization_inv hsim
  have hscore : r.optimizationScore =
      min 100 (70 + max 0 (min 50
        ((if pyIn "minimize" objective then b - o' else o' - b) / b * 100)) * (6/10)) := by
    rw [hr, hsimr]
  rw [hscore]
  constructor
  · refine le_min (by norm_num) ?_
    have h0 : (0:ℚ) ≤ max 0 (min 50
        ((if pyIn "minimize" objective then b - o' else o' - b) / b * 100)) :=
      le_max_left 0 _
    nlinarith
  · exact min_le_left _ _

/-- Witness for C10: the configured run on `{voltage: 2.2}` under
`maximize_purity` succeeds and its score lies in [70, 100]. -/
theorem C10_witness :
    ∃ r, optimize rng0 "t" OPTIMIZATION_ITERATIONS [("voltage", PValue.num (11/5))]
        "maximize_purity" = .ok r ∧
      70 ≤ r.optimizationScore ∧ r.optimizationScore ≤ 100 := by
  obtain ⟨r, hr, -, -⟩ := optimize_ok rng0 "t" OPTIMIZATION_ITERATIONS
    [("voltage", PValue.num (11/5))] "maximize_purity" (693/1000)
    (by decide) (by decide) (by decide) (by decide) (by decide) (by norm_num)
  exact ⟨r, hr, C10_score_range rng0 "t" OPTIMIZATION_ITERATIONS
    [("voltage", PValue.num (11/5))] "maximize_purity" r hr⟩

/-- Claim C2 counterexample: two configured calls with identical
parameters, objective and random stream but different clock readings both
succeed yet produce result records that are NOT bit-identical — the
`timestamp` field differs — refuting "every field of the two result
records is equal". -/
theorem C2_counterexample :
    optimize rng0 "2024-01-01T00:00:00" OPTIMIZATION_ITERATIONS
      [("temperature", PValue.num 65)] "maximize_efficiency" ≠
    optimize rng0 "2024-01-01T00:00:01" OPTIMIZATION_ITERATIONS
      [("temperature", PValue.num 65)] "maximize_efficiency" := by
  intro heq
  obtain ⟨r1, h1, ht1, -⟩ := optimize_ok rng0 "2024-01-01T00:00:00"
    OPTIMIZATION_ITERATIONS [("temperature", PValue.num 65)] "maximize_efficiency"
    (3/32) (by decide) (by decide) (by decide) (by decide) (by decide) (by norm_num)
  obtain ⟨r2, h2, ht2, -⟩ := optimize_ok rng0 "2024-01-01T00:00:01"
    OPTIMIZATION_ITERATIONS [("temperature", PValue.num 65)] "maximize_efficiency"
    (3/32) (by decide) (by decide) (by decide) (by decide) (by decide) (by norm_num)
  rw [h1, h2] at heq
  have hr12 : r1 = r2 := Except.ok.inj heq
  have : "2024-01-01T00:00:00" = "2024-01-01T00:00:01" := by
    rw [← ht1, hr12, ht2]
  exact absurd this (by decide)

/-- Claim C2 (amended): given identical parameters, objective and random
stream (the seed is the fixed constant 42, so the post-seed stream is the
same for every call), two `optimize` calls agree on every field of the
result except the wall-clock `timestamp`. -/
theorem C2_determinism_amended (rng : ℕ → ℚ) (now1 now2 : String) (mi : ℕ)
    (p : ParameterMap) (objective : String) :
    (optimize rng now1 mi p objective).map (fun r => { r with timestamp := "" }) =
    (optimize rng now2 mi p objective).map (fun r => { r with timestamp := "" }) := by
  simp only [optimize]
  cases simulateOptimization rng mi (selectAlgorithm p objective) p objective
      (defineParameterBounds p) with
  | error e => rfl
  | ok sim =>
    dsimp only
    cases generateRecommendations p sim objective with
    | error e => rfl
    | ok recs => rfl


/-- Unrolling one iteration of the loop when the early-exit test fails. -/
theorem loopGo_first_step (rng : ℕ → ℚ) (obj : String)
    (bnds : List (String × (ℚ × ℚ))) (mi : ℕ) (cutoff : ℚ) (last : Option ℕ)
    (st st1 : List (String × PValue) × ℕ) (fuel : ℕ)
    (h0 : sweepGo rng obj bnds 0 mi st.1 st.2 = .ok st1)
    (h0c : ¬ (((0 : ℕ) : ℚ) > cutoff)) :
    loopGo rng obj bnds mi cutoff 0 (fuel + 1) last st =
    loopGo rng obj bnds mi cutoff 1 fuel (some 0) st1 := by
  simp only [loopGo]
  rw [h0]
  dsimp only
  rw [if_neg h0c]

/-- The concrete `_simulate_optimization` run behind claim C6: parameters
`{temperature: 100}`, objective `"a_minimize"` (contains but does not
start with "minimize"), all-zero stream.  The first sweep clips the
temperature to its upper bound 95; every later sweep leaves it there; the
reported improvement percentage is `(45/128 − 175/512) / (45/128) * 100 =
25/9 ≈ 2.8`. -/
theorem C6run :
    ∃ sim, simulateOptimization rng0 100 "particle_swarm"
        [("temperature", PValue.num 100)] "a_minimize"
        (defineParameterBounds [("temperature", PValue.num 100)]) = .ok sim ∧
      sim.optimizedParameters = [("temperature", PValue.num 95)] ∧
      sim.improvementPct = 25/9 := by
  have hlb : lookupBounds (defineParameterBounds [("temperature", PValue.num 100)])
      "temperature" = some (15, 95) := by decide
  have h0 : sweepGo rng0 "a_minimize" (defineParameterBounds
      [("temperature", PValue.num 100)]) 0 100 [("temperature", PValue.num 100)] 0 =
      .ok ([("temperature", PValue.num 95)], 1) := by decide
  have hstat : ∀ j c, sweepGo rng0 "a_minimize"
      (defineParameterBounds [("temperature", PValue.num 100)]) j 100
      [("temperature", PValue.num 95)] c =
      .ok ([("temperature", PValue.num 95)], c + 1) := by
    intro j c
    simp only [sweepGo, hlb]
    rw [if_neg (by norm_num : ¬ (((95 : ℚ) - 15) * (5/100) < 0))]
    simp only [rng0, mul_zero, zero_mul, add_zero]
    norm_num [npClip, min_def, max_def]
  obtain ⟨c2, l2, hrest⟩ := loopGo_stationary rng0 "a_minimize"
    (defineParameterBounds [("temperature", PValue.num 100)]) 100
    (((100 : ℕ) : ℚ) * (92/100)) [("temperature", PValue.num 95)] 1 hstat
    99 1 (some 0) 1 (by norm_num)
  have hstep : loopGo rng0 "a_minimize"
      (defineParameterBounds [("temperature", PValue.num 100)]) 100
      (((100 : ℕ) : ℚ) * (92/100)) 0 100 none
      ([("temperature", PValue.num 100)], 0) =
      loopGo rng0 "a_minimize" (defineParameterBounds [("temperature", PValue.num 100)])
        100 (((100 : ℕ) : ℚ) * (92/100)) 1 99 (some 0)
        ([("temperature", PValue.num 95)], 1) :=
    loopGo_first_step rng0 "a_minimize"
      (defineParameterBounds [("temperature", PValue.num 100)]) 100
      (((100 : ℕ) : ℚ) * (92/100)) none ([("temperature", PValue.num 100)], 0)
      ([("temperature", PValue.num 95)], 1) 99 h0 (by push_cast; norm_num)
  have hloop := hstep.trans hrest
  have hsim := simulateOptimization_eq rng0 100 "particle_swarm"
    [("temperature", PValue.num 100)] "a_minimize"
    (defineParameterBounds [("temperature", PValue.num 100)]) ⟨92/100, 8/10⟩
    (45/128) [("temperature", PValue.num 95)] c2 l2 (175/512)
    (by decide) (by decide) hloop (by decide) (by norm_num)
  refine ⟨_, hsim, rfl, ?_⟩
  have hpy : pyIn "minimize" "a_minimize" = true := by decide
  simp only [hpy, if_true]
  norm_num [min_def, max_def]

/-- Claim C6 counterexample: the objective string `"a_minimize"` contains
"minimize" as a substring but does not start with it.  The code (which
tests substring containment) reports improvement `baseline − optimized =
25/9 %`, while the claim's formula (prefix test, hence
`optimized − baseline < 0`, clamped) would report 0. -/
theorem C6_counterexample :
    ∃ sim, simulateOptimization rng0 100 "particle_swarm"
        [("temperature", PValue.num 100)] "a_minimize"
        (defineParameterBounds [("temperature", PValue.num 100)]) = .ok sim ∧
      calculateObjectiveValue [("temperature", PValue.num 100)] "a_minimize" =
        .ok (45/128) ∧
      calculateObjectiveValue sim.optimizedParameters "a_minimize" = .ok (175/512) ∧
      pyStarts "minimize" "a_minimize" = false ∧
      sim.improvementPct = 25/9 ∧
      specImprovementPct (45/128) (175/512) "a_minimize" = 0 := by
  obtain ⟨sim, hsim, hopt, hpct⟩ := C6run
  refine ⟨sim, hsim, by decide, ?_, by decide, hpct, ?_⟩
  · rw [hopt]
    decide
  · have hps : pyStarts "minimize" "a_minimize" = false := by decide
    simp only [specImprovementPct, hps, Bool.false_eq_true, if_false]
    norm_num [min_def, max_def]

/-- Claim C6 (amended): for a strictly positive baseline, the reported
improvement is `baseline − optimized` exactly when the objective CONTAINS
"minimize" as a substring (the code tests containment, not a prefix) and
`optimized − baseline` otherwise, as a percentage of the baseline clamped
to [0, 50]; the reported percentage therefore always lies in [0, 50]. -/
theorem C6_improvement_amended (rng : ℕ → ℚ) (mi : ℕ) (alg : String)
    (p : ParameterMap) (objective : String) (bnds : List (String × (ℚ × ℚ)))
    (b o' : ℚ) (sim : SimResult)
    (hb : calculateObjectiveValue p objective = .ok b) (hbpos : 0 < b)
    (hsim : simulateOptimization rng mi alg p objective bnds = .ok sim)
    (ho : calculateObjectiveValue sim.optimizedParameters objective = .ok o') :
    sim.improvementPct =
      max 0 (min 50
        ((if pyIn "minimize" objective then b - o' else o' - b) / b * 100)) ∧
    0 ≤ sim.improvementPct ∧ sim.improvementPct ≤ 50 := by
  obtain ⟨info, b2, st, i, o2, hinfo, hb2, hloop, ho2, hb0, hsimr⟩ :=
    simulateOptimization_inv hsim
  rw [hb] at hb2
  obtain rfl := (Except.ok.inj hb2)
  rw [hsimr] at ho
  dsimp only at ho
  rw [ho2] at ho
  obtain rfl := (Except.ok.inj ho)
  refine ⟨by rw [hsimr], ?_, ?_⟩
  · rw [hsimr]
    exact le_max_left 0 _
  · rw [hsimr]
    exact max_le (by norm_num) (le_trans (min_le_left _ _) (by norm_num))

/-- Witness for C6: the concrete `"a_minimize"` run from the
counterexample input, with baseline 45/128 > 0, satisfies the amended
bounds. -/
theorem C6_witness :
    ∃ sim, simulateOptimization rng0 100 "particle_swarm"
        [("temperature", PValue.num 100)] "a_minimize"
        (defineParameterBounds [("temperature", PValue.num 100)]) = .ok sim ∧
      0 ≤ sim.improvementPct ∧ sim.improvementPct ≤ 50 := by
  obtain ⟨sim, hsim, hopt, -⟩ := C6run
  have h := C6_improvement_amended rng0 100 "particle_swarm"
    [("temperature", PValue.num 100)] "a_minimize"
    (defineParameterBounds [("temperature", PValue.num 100)]) (45/128) (175/512) sim
    (by decide) (by norm_num) hsim (by rw [hopt]; decide)
  exact ⟨sim, hsim, h.2.1, h.2.2⟩


/-- Sum of a list divided elementwise. -/
theorem list_sum_map_div (l : List ℚ) (d : ℚ) :
    (l.map (fun w => w / d)).sum = l.sum / d := by
  induction l with
  | nil => simp
  | cons a t ih => simp [ih, add_div]

/-- A list of nonnegative rationals summing to zero is all zeros. -/
theorem list_all_zero_of_sum_zero (l : List ℚ) (hn : ∀ x ∈ l, 0 ≤ x)
    (hs : l.sum = 0) : ∀ x ∈ l, x = 0 := by
  induction l with
  | nil =>
    intro x hx
    exact absurd hx (List.not_mem_nil x)
  | cons a t ih =>
    have hts : 0 ≤ t.sum := List.sum_nonneg (fun x hx => hn x (List.mem_cons_of_mem a hx))
    have ha : 0 ≤ a := hn a (List.mem_cons_self a t)
    have hsum : a + t.sum = 0 := by simpa using hs
    intro x hx
    rcases List.mem_cons.mp hx with rfl | hx2
    · linarith
    · exact ih (fun y hy => hn y (List.mem_cons_of_mem a hy)) (by linarith) x hx2

/-- `genParetoGo` on fuel `n` returns exactly `n` solutions. -/
theorem genParetoGo_length (rng : ℕ → ℚ) (objectives : List String) (weights : List ℚ)
    (bounds : List (String × (ℚ × ℚ))) (params : ParameterMap) :
    ∀ n c sols c2,
      genParetoGo rng objectives weights bounds params n c = .ok (sols, c2) →
      sols.length = n := by
  intro n
  induction n with
  | zero =>
    intro c sols c2 h
    simp only [genParetoGo] at h
    injection h with h2
    injection h2 with ha hb
    subst ha
    rfl
  | succ n ih =>
    intro c sols c2 h
    simp only [genParetoGo] at h
    split at h
    · exact Except.noConfusion h
    · rename_i sp cmid hsw
      split at h
      · exact Except.noConfusion h
      · rename_i ovs hov
        split at h
        · exact Except.noConfusion h
        · rename_i rest crec hrec
          injection h with h2
          injection h2 with ha hb
          subst ha
          simp only [List.length_cons, ih cmid rest crec hrec]

/-- Every solution produced by `genParetoGo` carries the weight vector
`if sum > 0 then normalized else raw` for some elementwise-nonnegative raw
vector (the clamp `max(0, ·)` applied to the perturbed weights). -/
theorem genParetoGo_weights (rng : ℕ → ℚ) (objectives : List String) (weights : List ℚ)
    (bounds : List (String × (ℚ × ℚ))) (params : ParameterMap) :
    ∀ n c sols c2,
      genParetoGo rng objectives weights bounds params n c = .ok (sols, c2) →
      ∀ s ∈ sols, ∃ v1 : List ℚ, (∀ x ∈ v1, 0 ≤ x) ∧
        s.weights = if v1.sum > 0 then v1.map (fun w => w / v1.sum) else v1 := by
  intro n
  induction n with
  | zero =>
    intro c sols c2 h s hs
    simp only [genParetoGo] at h
    injection h with h2
    injection h2 with ha hb
    subst ha
    exact absurd hs (List.not_mem_nil s)
  | succ n ih =>
    intro c sols c2 h s hs
    simp only [genParetoGo] at h
    split at h
    · exact Except.noConfusion h
    · rename_i sp cmid hsw
      split at h
      · exact Except.noConfusion h
      · rename_i ovs hov
        split at h
        · exact Except.noConfusion h
        · rename_i rest crec hrec
          injection h with h2
          injection h2 with ha hb
          subst ha
          rcases List.mem_cons.mp hs with rfl | hs2
          · refine ⟨(variedW rng c weights).map (fun w => max 0 w), ?_, rfl⟩
            intro x hx
            obtain ⟨y, -, rfl⟩ := List.mem_map.mp hx
            exact le_max_left 0 y
          · exact ih cmid rest crec hrec s hs2

/-- Claim C7 (amended): on success `multi_objective_optimization` returns
exactly 5 Pareto solutions and `best_compromise` is the first of them, but
a solution's weight vector sums to 1 only when the clamped perturbed
weights have positive sum; otherwise it is the all-zero vector (summing to
0, not 1). -/
theorem C7_pareto_amended (rng : ℕ → ℚ) (now : String) (params : ParameterMap)
    (objectives : List String) (weightsIn : Option (List ℚ)) (r : MultiObjectiveResult)
    (hobj : objectives ≠ [])
    (h : multiObjectiveOptimization rng now params objectives weightsIn = .ok r) :
    r.paretoSolutions.length = 5 ∧
    r.paretoSolutions.head? = some r.bestCompromise ∧
    ∀ s ∈ r.paretoSolutions,
      s.weights.sum = 1 ∨ (s.weights.sum = 0 ∧ ∀ x ∈ s.weights, x = 0) := by
  simp only [multiObjectiveOptimization] at h
  split at h
  · exact Except.noConfusion h
  · rename_i w0 hw0
    split at h
    · exact Except.noConfusion h
    · rename_i hnz
      split at h
      · exact Except.noConfusion h
      · rename_i sols cgen hgen
        split at h
        · exact Except.noConfusion h
        · rename_i best restSols
          split at h
          · exact Except.noConfusion h
          · rename_i recs hrecs
            obtain rfl := (Except.ok.inj h).symm
            refine ⟨genParetoGo_length rng objectives _ _ params 5 0 _ cgen hgen, rfl, ?_⟩
            intro s hs
            obtain ⟨v1, hpos, hw⟩ :=
              genParetoGo_weights rng objectives _ _ params 5 0 _ cgen hgen s hs
            by_cases hc : v1.sum > 0
            · left
              rw [hw, if_pos hc, list_sum_map_div]
              exact div_self (ne_of_gt hc)
            · right
              have h0 : v1.sum = 0 := le_antisymm (not_lt.mp hc) (List.sum_nonneg hpos)
              rw [hw, if_neg hc]
              exact ⟨h0, list_all_zero_of_sum_zero v1 hpos h0⟩

/-- Claim C7 counterexample: on `{voltage: 2.2}` with objectives
`["maximize_purity", "minimize_cost"]`, default weights, and a stream that
always draws −5, every perturbed weight `0.5 − 0.5` is clamped to 0, so
each returned solution's weight vector is `[0, 0]`, summing to 0, not
1 (the run still returns 5 solutions with the first as best compromise). -/
theorem C7_counterexample :
    multiObjectiveOptimization (fun _ => -5) "t" [("voltage", PValue.num (11/5))]
      ["maximize_purity", "minimize_cost"] none = .ok wMO7 ∧
    wMO7.paretoSolutions.head? = some wSol7 ∧
    wSol7.weights.sum = 0 ∧ wSol7.weights.sum ≠ 1 := by
  exact ⟨by decide, by decide, by decide, by decide⟩

/-- Witness for C7: the counterexample run satisfies the amended claim. -/
theorem C7_witness :
    ["maximize_purity", "minimize_cost"] ≠ ([] : List String) ∧
    wMO7.paretoSolutions.length = 5 ∧
    wMO7.paretoSolutions.head? = some wMO7.bestCompromise := by
  have h := C7_pareto_amended (fun _ => -5) "t" [("voltage", PValue.num (11/5))]
    ["maximize_purity", "minimize_cost"] none wMO7 (by decide) (by decide)
  exact ⟨by decide, h.1, h.2.1⟩


/-- Claim C8 counterexample: an original parameter whose value is 0 (here
`{temperature: 0}`, optimized to 15) makes the directional-recommendation
pass divide by zero — `(new_val - orig_val) / orig_val` — so the
recommendation generator fails instead of returning a non-empty list. -/
theorem C8_counterexample :
    generateRecommendations [("temperature", PValue.num 0)] wSim8
      "maximize_efficiency" = .error PyErr.zeroDivision := by
  decide

/-- Claim C8 (amended): the recommendation generator completes with a
non-empty list of strings provided every optimized parameter that also
appears in the original map is numeric on both sides with a NONZERO
original value; zero or non-numeric originals are genuine failure modes
(ZeroDivisionError / TypeError), contrary to the claim. -/
theorem C8_recommendations_amended (original : ParameterMap) (sim : SimResult)
    (objective : String)
    (H : ∀ kv ∈ sim.optimizedParameters, ∀ gv, lookupVal original kv.1 = some gv →
      ∃ qo qg, kv.2 = PValue.num qo ∧ gv = PValue.num qg ∧ qg ≠ 0) :
    ∃ l, generateRecommendations original sim objective = .ok l ∧ l ≠ [] :=
  generateRecommendations_ok original sim objective H

/-- Witness for C8: original `{temperature: 65}`, optimized
`{temperature: 70}` — the hypothesis holds (65 ≠ 0) and the generator
returns a non-empty list. -/
theorem C8_witness :
    ∃ l, generateRecommendations [("temperature", PValue.num 65)] wSim8b
      "maximize_efficiency" = .ok l ∧ l ≠ [] := by
  apply C8_recommendations_amended
  intro kv hkv gv hgv
  have hmem : kv = ("temperature", PValue.num 70) := by
    simpa [wSim8b] using hkv
  subst hmem
  have hlv : lookupVal [("temperature", PValue.num 65)] "temperature" =
      some (PValue.num 65) := by decide
  rw [hlv] at hgv
  obtain rfl := (Option.some.inj hgv).symm
  exact ⟨70, 65, rfl, rfl, by norm_num⟩

end WarpMining
